import Mathlib

/-!
Verification development for the `project_phantom` four-stage trading pipeline.

The Python modules under `project_phantom/` are shallowly embedded below:

* IEEE-754 64-bit floats are idealised as rationals (`ℚ`); Python's
  `round(x, n)` (round-half-to-even on the exact value) becomes `pyRoundTo`.
* `asyncio.Queue` instances become lists together with a `maxsize` bound.
* Stateful coroutine loops become explicit state-transition functions; the
  wall-clock reads (`_now_ms()`) inside one loop body are collapsed into a
  single `now` parameter of that body, and each I/O interaction (order
  placement, SMC detector call, notification send) becomes an explicit
  outcome parameter of the transition.
* Python `dict` payloads threaded through events (`event.raw`) become
  structures with the optional fields that the embedded code reads.

Every definition carries the name of the Python function or class it embeds.
-/

namespace Phantom

/-- Trade direction, `Direction = Literal["LONG", "SHORT"]` in `core/types.py`. -/
inductive Direction where
  | LONG
  | SHORT
deriving DecidableEq, Repr

/-- Round-half-to-even to an integer, the semantics of Python's builtin
`round` on an exact (rational) value. -/
def roundHalfEven (x : ℚ) : ℤ :=
  if x - ⌊x⌋ < 1/2 then ⌊x⌋
  else if 1/2 < x - ⌊x⌋ then ⌊x⌋ + 1
  else if ⌊x⌋ % 2 = 0 then ⌊x⌋ else ⌊x⌋ + 1

/-- Python `round(x, n)` for `n ≥ 0` digits, idealised over `ℚ`. -/
def pyRoundTo (x : ℚ) (n : ℕ) : ℚ :=
  (roundHalfEven (x * (10 : ℚ) ^ n) : ℚ) / (10 : ℚ) ^ n

/-- `clamp` from `layer0/signals.py` / `layer1/metrics.py` (defaults 0, 1). -/
def clamp (value : ℚ) (lower : ℚ := 0) (upper : ℚ := 1) : ℚ :=
  max lower (min upper value)

/-!  ## Bounded channel with drop-oldest (`_emit_with_drop_oldest`)

`trap_detector.py` / `ignition_engine.py` / `executor.py` all contain the
same producer-side helper: if the `asyncio.Queue` is bounded and full, one
`get_nowait()` discards the oldest element and `health.queue_drops` is
incremented, then the new event is enqueued (which cannot block anymore). -/

/-- State of one bounded channel: its capacity (`maxsize`, 0 = unbounded)
and the queued items, oldest first. -/
structure Channel (α : Type) where
  maxsize : ℕ
  items : List α
deriving Repr

/-- `_emit_with_drop_oldest`: returns the updated channel and the updated
`queue_drops` counter. -/
def emitWithDropOldest {α : Type} (q : Channel α) (event : α) (queue_drops : ℕ) :
    Channel α × ℕ :=
  if 0 < q.maxsize ∧ q.maxsize ≤ q.items.length then
    ({ q with items := q.items.tail ++ [event] }, queue_drops + 1)
  else
    ({ q with items := q.items ++ [event] }, queue_drops)

/-!  ## Layer0 — setup detector (`layer0/signals.py`, `layer0/trap_detector.py`) -/

/-- `OIObservation` from `core/types.py`. -/
structure OIObservation where
  ts_ms : ℤ
  open_interest : ℚ
deriving Repr

/-- `SignalBreakdown` from `core/types.py`. -/
structure SignalBreakdown where
  liquidation_long : ℚ
  liquidation_short : ℚ
  funding_oi_long : ℚ
  funding_oi_short : ℚ
  oi_divergence : ℚ
deriving Repr

/-- `SignalBreakdown.for_direction`. -/
def SignalBreakdown.for_direction (b : SignalBreakdown) (d : Direction) : ℚ × ℚ × ℚ :=
  match d with
  | .LONG => (b.liquidation_long, b.funding_oi_long, b.oi_divergence)
  | .SHORT => (b.liquidation_short, b.funding_oi_short, b.oi_divergence)

/-- `SignalWeights` from `config.py` (defaults 0.40 / 0.30 / 0.30). -/
structure SignalWeights where
  liquidation : ℚ
  funding_oi : ℚ
  oi_divergence : ℚ
deriving Repr

/-- The two fields of `ThresholdConfig` (`config.py`) read by `passes_gate`;
the scale fields feeding `compute_funding_oi_scores` are not needed here
because the component scores enter the embedded cycle as parameters. -/
structure ThresholdConfig where
  score_threshold : ℚ
  component_threshold : ℚ
deriving Repr

/-- The two fields of `RegimeFilterConfig` (`config.py`) read by the gate
section of `_scoring_loop`. -/
structure RegimeFilterConfig where
  enabled : Bool
  min_score : ℚ
deriving Repr

/-- `AdaptiveGateConfig` from `config.py`. -/
structure AdaptiveGateConfig where
  enabled : Bool
  window_cycles : ℕ
  quantile : ℚ
  floor : ℚ
  ceiling : ℚ
  min_samples : ℕ
deriving Repr

/-- Ascending insertion of one value into a sorted list of rationals. -/
def insertRat (x : ℚ) : List ℚ → List ℚ
  | [] => [x]
  | y :: ys => if y ≤ x then y :: insertRat x ys else x :: y :: ys

/-- Ascending sort, the embedding of Python's `sorted` on score lists. -/
def sortRat : List ℚ → List ℚ
  | [] => []
  | x :: xs => insertRat x (sortRat xs)

/-- `compute_adaptive_threshold` from `layer0/signals.py`.  `ranked[idx]` is
embedded as `getD _ 0`; the index is in bounds whenever the branch is
reached. -/
def compute_adaptive_threshold (observed_scores : List ℚ)
    (config : AdaptiveGateConfig) (base_threshold : ℚ) : ℚ :=
  if ¬config.enabled then base_threshold
  else if observed_scores.length < max 1 config.min_samples then base_threshold
  else
    let ranked := sortRat observed_scores
    let quantile := clamp config.quantile 0 1
    let idx := roundHalfEven (((ranked.length : ℚ) - 1) * quantile)
    let dynamic := ranked.getD idx.toNat 0
    let lower := max base_threshold config.floor
    let upper := if config.ceiling < lower then lower else config.ceiling
    clamp dynamic lower upper

/-- `compute_directional_score` from `layer0/signals.py`. -/
def compute_directional_score (breakdown : SignalBreakdown) (direction : Direction)
    (weights : SignalWeights) : ℚ :=
  let (liq, fund_oi, oi_div) := breakdown.for_direction direction
  weights.liquidation * liq + weights.funding_oi * fund_oi +
    weights.oi_divergence * oi_div

/-- `passes_gate` from `layer0/signals.py`. -/
def passes_gate (breakdown : SignalBreakdown) (direction : Direction) (score : ℚ)
    (threshold : ThresholdConfig) (score_threshold_override : Option ℚ) : Bool :=
  let active_threshold :=
    match score_threshold_override with
    | none => threshold.score_threshold
    | some t => t
  if score < active_threshold then false
  else
    let (a, b, c) := breakdown.for_direction direction
    2 ≤ (if threshold.component_threshold ≤ a then 1 else 0) +
        (if threshold.component_threshold ≤ b then 1 else 0) +
        (if threshold.component_threshold ≤ c then (1 : ℕ) else 0)

/-- The per-history test inside `has_warmup_window`'s loop: the history is
non-empty and its oldest observation is at least `warmup_ms` old. -/
def spansWarmup (history : List OIObservation) (now_ms warmup_ms : ℤ) : Bool :=
  match history with
  | [] => false
  | first :: _ => warmup_ms ≤ now_ms - first.ts_ms

/-- `has_warmup_window` from `layer0/signals.py`; the dict of per-exchange
OI histories is embedded as a list of histories. -/
def has_warmup_window (history_map : List (List OIObservation))
    (now_ms : ℤ) (warmup_ms : ℤ) : Bool :=
  if history_map.isEmpty then false
  else history_map.any fun history => spansWarmup history now_ms warmup_ms

/-- The LONG gate result of one `_scoring_loop` cycle: `passes_gate` with the
adaptive threshold override, then forced to fail when the enabled regime
filter scores the direction below `min_score`. -/
def l0_long_pass (breakdown : SignalBreakdown) (weights : SignalWeights)
    (thresholds : ThresholdConfig) (adaptive_threshold : ℚ)
    (regime : RegimeFilterConfig) (regime_long_score : ℚ) : Bool :=
  if regime.enabled ∧ regime_long_score < regime.min_score then false
  else passes_gate breakdown .LONG
    (compute_directional_score breakdown .LONG weights) thresholds
    (some adaptive_threshold)

/-- The SHORT gate result of one `_scoring_loop` cycle (symmetric). -/
def l0_short_pass (breakdown : SignalBreakdown) (weights : SignalWeights)
    (thresholds : ThresholdConfig) (adaptive_threshold : ℚ)
    (regime : RegimeFilterConfig) (regime_short_score : ℚ) : Bool :=
  if regime.enabled ∧ regime_short_score < regime.min_score then false
  else passes_gate breakdown .SHORT
    (compute_directional_score breakdown .SHORT weights) thresholds
    (some adaptive_threshold)

/-- One cycle of Layer0's `_scoring_loop` (`trap_detector.py`), from the
warmup guard to the direction-selection / emission decision.  The
data-gathering middle of the loop (snapshot staleness, liquidation book,
funding fusion, divergence) produces `current_price`, the component
`breakdown`, the `adaptive_threshold` and the regime scores; those computed
values enter here as parameters.  The result is the emitted
(direction, score) pair, or `none` when the cycle emits nothing. -/
def l0_cycle (histories : List (List OIObservation)) (now_ms warmup_ms : ℤ)
    (current_price : ℚ) (breakdown : SignalBreakdown)
    (weights : SignalWeights) (thresholds : ThresholdConfig)
    (adaptive_threshold : ℚ) (regime : RegimeFilterConfig)
    (regime_long_score regime_short_score : ℚ) : Option (Direction × ℚ) :=
  if ¬has_warmup_window histories now_ms warmup_ms then none
  else if current_price ≤ 0 then none
  else if l0_long_pass breakdown weights thresholds adaptive_threshold regime
        regime_long_score ∨
      l0_short_pass breakdown weights thresholds adaptive_threshold regime
        regime_short_score then
    if l0_short_pass breakdown weights thresholds adaptive_threshold regime
          regime_short_score ∧
        compute_directional_score breakdown .LONG weights <
          compute_directional_score breakdown .SHORT weights then
      some (.SHORT, compute_directional_score breakdown .SHORT weights)
    else some (.LONG, compute_directional_score breakdown .LONG weights)
  else none

/-!  ## Layer1 — absorption engine (`layer1/metrics.py`) -/

/-- `TradeTick` from `core/types.py`. -/
structure TradeTick where
  exchange : String
  symbol : String
  price : ℚ
  quantity : ℚ
  is_buyer_maker : Bool
  ts_ms : ℤ
deriving Repr

instance : Inhabited TradeTick := ⟨⟨"", "", 0, 0, false, 0⟩⟩

/-- The `notional` property of `TradeTick`. -/
def TradeTick.notional (t : TradeTick) : ℚ := t.price * t.quantity

/-- `signed_notional` from `layer1/metrics.py`: `is_buyer_maker = true` means
the seller was aggressive, so the notional counts negatively. -/
def signed_notional (trade : TradeTick) : ℚ :=
  if trade.is_buyer_maker then -trade.notional else trade.notional

/-- Stable insertion of a trade into a list sorted by `ts_ms` (placed before
the first trade with an equal-or-later timestamp). -/
def insertByTs (t : TradeTick) : List TradeTick → List TradeTick
  | [] => [t]
  | y :: ys => if y.ts_ms < t.ts_ms then y :: insertByTs t ys else t :: y :: ys

/-- Stable sort by `ts_ms`, the embedding of
`sorted(trades, key=lambda row: row.ts_ms)`. -/
def sortTrades : List TradeTick → List TradeTick
  | [] => []
  | x :: xs => insertByTs x (sortTrades xs)

/-- Result record of `compute_cvd_scores` (the Python function returns a
6-tuple). -/
structure CvdScores where
  long_score : ℚ
  short_score : ℚ
  cvd_delta : ℚ
  price_delta_pct : ℚ
  hidden_long : Bool
  hidden_short : Bool
deriving Repr

/-- `compute_cvd_scores` from `layer1/metrics.py`. -/
def compute_cvd_scores (trades : List TradeTick) (cvd_scale_usd : ℚ) : CvdScores :=
  if trades.length < 2 then ⟨0, 0, 0, 0, false, false⟩
  else
    let ordered := sortTrades trades
    let cvd_delta := (ordered.map signed_notional).sum
    let start_price := ordered.headI.price
    let end_price := ordered.getLastI.price
    let price_delta_pct := if start_price ≤ 0 then 0 else end_price / start_price - 1
    let long_score0 :=
      if 0 < cvd_scale_usd then clamp (max cvd_delta 0 / cvd_scale_usd) else 0
    let short_score0 :=
      if 0 < cvd_scale_usd then clamp (max (-cvd_delta) 0 / cvd_scale_usd) else 0
    let hidden_long := 0 < price_delta_pct ∧ cvd_delta < 0
    let hidden_short := price_delta_pct < 0 ∧ 0 < cvd_delta
    { long_score := if hidden_long then max long_score0 (3/5) else long_score0
      short_score := if hidden_short then max short_score0 (3/5) else short_score0
      cvd_delta := cvd_delta
      price_delta_pct := price_delta_pct
      hidden_long := hidden_long
      hidden_short := hidden_short }

/-- `AbsorptionBreakdown` from `core/types.py`. -/
structure AbsorptionBreakdown where
  whale_net_flow_long : ℚ
  whale_net_flow_short : ℚ
  twap_uniformity_long : ℚ
  twap_uniformity_short : ℚ
  cvd_long : ℚ
  cvd_short : ℚ
  stablecoin_inflow : ℚ
  hidden_divergence_long : Bool
  hidden_divergence_short : Bool
deriving Repr

/-- `AbsorptionBreakdown.score_components`. -/
def AbsorptionBreakdown.score_components (b : AbsorptionBreakdown)
    (d : Direction) : ℚ × ℚ × ℚ × ℚ :=
  match d with
  | .LONG => (b.whale_net_flow_long, b.twap_uniformity_long, b.cvd_long,
      b.stablecoin_inflow)
  | .SHORT => (b.whale_net_flow_short, b.twap_uniformity_short, b.cvd_short,
      b.stablecoin_inflow)

/-- `AbsorptionBreakdown.hidden_divergence_for`. -/
def AbsorptionBreakdown.hidden_divergence_for (b : AbsorptionBreakdown)
    (d : Direction) : Bool :=
  match d with
  | .LONG => b.hidden_divergence_long
  | .SHORT => b.hidden_divergence_short

/-- The four fields of `Layer1Weights` (`config.py`) read by
`compute_absorption_score` (the order-book and sweep weights are consumed
elsewhere). -/
structure Layer1Weights where
  whale_net_flow : ℚ
  twap_uniformity : ℚ
  cvd : ℚ
  stablecoin_inflow : ℚ
deriving Repr

/-- `compute_absorption_score` from `layer1/metrics.py`. -/
def compute_absorption_score (breakdown : AbsorptionBreakdown)
    (direction : Direction) (weights : Layer1Weights) : ℚ :=
  let (whale_flow, twap, cvd, stablecoin) := breakdown.score_components direction
  let score := weights.whale_net_flow * whale_flow +
    weights.twap_uniformity * twap + weights.cvd * cvd +
    weights.stablecoin_inflow * stablecoin
  clamp (if breakdown.hidden_divergence_for direction then score + 1/10 else score)

/-!  ## Event payloads crossing Layer2/Layer3

The Python events carry free-form `raw` dictionaries.  The embedding types
them with exactly the (optional) keys that the embedded Layer2/Layer3 code
reads through `_nested_float` fallback chains. -/

/-- The keys of a `TrapSetupEvent.raw` payload read downstream
(`_source_raw` fallbacks of `layer3/planner.py` and the regime lookup of
`derive_adaptive_quantity`). -/
structure TrapRaw where
  current_price : Option ℚ
  swept_liquidation_zone_low : Option ℚ
  swept_liquidation_zone_high : Option ℚ
  nearest_ob_above : Option ℚ
  nearest_ob_below : Option ℚ
  regime_long_score : Option ℚ
  regime_short_score : Option ℚ
deriving Repr

/-- A `TrapRaw` with every key absent — the `{}` returned by `_source_raw`
when the nested payload is missing. -/
def TrapRaw.empty : TrapRaw := ⟨none, none, none, none, none, none, none⟩

/-- The keys of an `AbsorptionEvent.raw` payload read downstream. -/
structure AbsorptionRaw where
  current_price : Option ℚ
  source_trap_score : Option ℚ
  source_trap_raw : Option TrapRaw
deriving Repr

/-- `IgnitionBreakdown` from `core/types.py`. -/
structure IgnitionBreakdown where
  choch : Bool
  order_block : Bool
  absorption_strength : Bool
  trap_strength : Bool
  momentum : Bool
  confirmations : ℕ
deriving Repr, DecidableEq

/-- The keys of a `PrePumpEvent.raw` payload read by `layer3/planner.py`.
Layer2 populates only `source_absorption_raw`; the top-level price/zone keys
exist for payloads built elsewhere and are read first by the fallback
chains. -/
structure PrePumpRaw where
  entry : Option ℚ
  current_price : Option ℚ
  swept_liquidation_zone_low : Option ℚ
  swept_liquidation_zone_high : Option ℚ
  nearest_ob_above : Option ℚ
  nearest_ob_below : Option ℚ
  source_absorption_raw : Option AbsorptionRaw
deriving Repr

/-- `PrePumpEvent` from `core/types.py`. -/
structure PrePumpEvent where
  event_id : String
  ts_ms : ℤ
  symbol : String
  direction : Direction
  score : ℚ
  passed : Bool
  source_absorption_event_id : String
  source_trap_event_id : String
  components : IgnitionBreakdown
  raw : PrePumpRaw
  degraded : Bool
deriving Repr

/-!  ## Layer3 — planner (`layer3/planner.py`) -/

/-- `_source_raw` from `layer3/planner.py`: the nested
`raw["source_absorption_raw"]["source_trap_raw"]` payload, or `{}`. -/
def sourceRaw (event : PrePumpEvent) : TrapRaw :=
  match event.raw.source_absorption_raw with
  | none => TrapRaw.empty
  | some absorption_raw =>
    match absorption_raw.source_trap_raw with
    | none => TrapRaw.empty
    | some trap_raw => trap_raw

/-- The candidate scan of `derive_entry_price`: first value that is present
and strictly positive. -/
def firstPositive : List (Option ℚ) → Option ℚ
  | [] => none
  | none :: rest => firstPositive rest
  | some c :: rest => if 0 < c then some c else firstPositive rest

/-- `derive_entry_price` from `layer3/planner.py`. -/
def derive_entry_price (event : PrePumpEvent) : Option ℚ :=
  firstPositive
    [event.raw.entry,
     event.raw.current_price,
     (event.raw.source_absorption_raw).bind (fun a => a.current_price),
     (sourceRaw event).current_price]

/-- The three fields of `Layer3RiskConfig` (`config.py`) read by
`build_execution_plan` (the TP1 quantity split ratio is consumed only by the
live order-placement helper). -/
structure Layer3RiskConfig where
  default_sl_buffer_pct : ℚ
  tp1_r_multiple : ℚ
  tp2_r_multiple : ℚ
deriving Repr

/-- `ExecutionPlan` from `core/types.py`. -/
structure ExecutionPlan where
  entry : ℚ
  sl : ℚ
  tp1 : ℚ
  tp2 : ℚ
  rr : ℚ
  sl_pct : ℚ
  tp1_pct : ℚ
  tp2_pct : ℚ
  quantity : ℚ
  risk_amount : ℚ
deriving Repr

/-- The effective swept-zone low: `event.raw` first, then the nested trap
payload (the two `_nested_float` lookups of `build_execution_plan`). -/
def zoneLowOf (event : PrePumpEvent) : Option ℚ :=
  match event.raw.swept_liquidation_zone_low with
  | some v => some v
  | none => (sourceRaw event).swept_liquidation_zone_low

/-- The effective swept-zone high (fallback chain as `zoneLowOf`). -/
def zoneHighOf (event : PrePumpEvent) : Option ℚ :=
  match event.raw.swept_liquidation_zone_high with
  | some v => some v
  | none => (sourceRaw event).swept_liquidation_zone_high

/-- The effective nearest order block above entry. -/
def obAboveOf (event : PrePumpEvent) : Option ℚ :=
  match event.raw.nearest_ob_above with
  | some v => some v
  | none => (sourceRaw event).nearest_ob_above

/-- The effective nearest order block below entry. -/
def obBelowOf (event : PrePumpEvent) : Option ℚ :=
  match event.raw.nearest_ob_below with
  | some v => some v
  | none => (sourceRaw event).nearest_ob_below

/-- The unrounded sl/risk/tp1/tp2 arithmetic of `build_execution_plan`
(`layer3/planner.py` rounds these to 2 decimals when packing the
`ExecutionPlan`). -/
structure PlanCore where
  sl : ℚ
  risk : ℚ
  tp1 : ℚ
  tp2 : ℚ
deriving Repr

/-- The LONG branch of `build_execution_plan`'s arithmetic, over the
already-resolved zone/order-block lookups. -/
def plan_core_long (zone_low ob_above : Option ℚ) (entry_price : ℚ)
    (risk_config : Layer3RiskConfig) : PlanCore :=
  let sl := match zone_low with
    | some z => if z < entry_price then z
        else entry_price * (1 - risk_config.default_sl_buffer_pct)
    | none => entry_price * (1 - risk_config.default_sl_buffer_pct)
  let risk := max (entry_price - sl) (entry_price * (5/10000))
  let tp1a := match ob_above with
    | some o => if entry_price < o then o
        else entry_price + risk_config.tp1_r_multiple * risk
    | none => entry_price + risk_config.tp1_r_multiple * risk
  let tp2 := entry_price + risk_config.tp2_r_multiple * risk
  let tp1b := max tp1a (entry_price + risk * (4/5))
  let tp1 := if tp2 ≤ tp1b then entry_price + risk_config.tp1_r_multiple * risk
    else tp1b
  ⟨sl, risk, tp1, tp2⟩

/-- The SHORT branch of `build_execution_plan`'s arithmetic. -/
def plan_core_short (zone_high ob_below : Option ℚ) (entry_price : ℚ)
    (risk_config : Layer3RiskConfig) : PlanCore :=
  let sl := match zone_high with
    | some z => if entry_price < z then z
        else entry_price * (1 + risk_config.default_sl_buffer_pct)
    | none => entry_price * (1 + risk_config.default_sl_buffer_pct)
  let risk := max (sl - entry_price) (entry_price * (5/10000))
  let tp1a := match ob_below with
    | some o => if o < entry_price then o
        else entry_price - risk_config.tp1_r_multiple * risk
    | none => entry_price - risk_config.tp1_r_multiple * risk
  let tp2 := entry_price - risk_config.tp2_r_multiple * risk
  let tp1b := min tp1a (entry_price - risk * (4/5))
  let tp1 := if tp1b ≤ tp2 then entry_price - risk_config.tp1_r_multiple * risk
    else tp1b
  ⟨sl, risk, tp1, tp2⟩

/-- The per-direction arithmetic block of `build_execution_plan`. -/
def plan_core (event : PrePumpEvent) (entry_price : ℚ)
    (risk_config : Layer3RiskConfig) : PlanCore :=
  match event.direction with
  | .LONG => plan_core_long (zoneLowOf event) (obAboveOf event) entry_price
      risk_config
  | .SHORT => plan_core_short (zoneHighOf event) (obBelowOf event) entry_price
      risk_config

/-!  ## Layer2 — ignition engine (`layer2/signals.py`,
`layer2/ignition_engine.py`) -/

/-- `AbsorptionEvent` from `core/types.py` (its `raw` typed with the keys
Layer2/Layer3 read). -/
structure AbsorptionEvent where
  event_id : String
  ts_ms : ℤ
  symbol : String
  direction : Direction
  score : ℚ
  passed : Bool
  source_trap_event_id : String
  components : AbsorptionBreakdown
  raw : AbsorptionRaw
  degraded : Bool
deriving Repr

/-- `Candle` from `core/types.py`. -/
structure Candle where
  open_time_ms : ℤ
  «open» : ℚ
  high : ℚ
  low : ℚ
  close : ℚ
  volume : ℚ
  close_time_ms : ℤ
deriving Repr

instance : Inhabited Candle := ⟨⟨0, 0, 0, 0, 0, 0, 0⟩⟩

/-- `Layer2ThresholdConfig` from `config.py`. -/
structure Layer2ThresholdConfig where
  min_confirmations : ℕ
  absorption_score_min : ℚ
  trap_score_min : ℚ
  momentum_lookback_bars : ℕ
  momentum_min_return_pct : ℚ
deriving Repr

/-- The fields of `Layer2Config` (`config.py`) read by the embedded consumer
and scoring loop. -/
structure Layer2Config where
  symbol : String
  setup_ttl_ms : ℤ
  enable_smartmoneyconcepts : Bool
  thresholds : Layer2ThresholdConfig
deriving Repr

/-- `_safe_source_trap_score` from `layer2/signals.py`. -/
def safe_source_trap_score (event : AbsorptionEvent) : ℚ :=
  match event.raw.source_trap_score with
  | none => 0
  | some v => v

/-- `_momentum_signal` from `layer2/signals.py`; `candles[-1 - lookback]`
becomes a `getD` at index `length - 1 - lookback`. -/
def momentum_signal (candles : List Candle) (direction : Direction)
    (lookback_bars : ℕ) (min_return_pct : ℚ) : Bool × ℚ :=
  if candles.length ≤ lookback_bars then (false, 0)
  else
    let latest := candles.getLastI.close
    let base := (candles.getD (candles.length - 1 - lookback_bars) default).close
    if base ≤ 0 then (false, 0)
    else
      let ret_pct := latest / base - 1
      match direction with
      | .LONG => (min_return_pct ≤ ret_pct, ret_pct)
      | .SHORT => (ret_pct ≤ -min_return_pct, ret_pct)

/-- `build_ignition_breakdown` from `layer2/signals.py`; returns the
breakdown plus the derived (trap score, momentum return) pair. -/
def build_ignition_breakdown (absorption_event : AbsorptionEvent)
    (candles : List Candle) (direction : Direction)
    (choch_signal order_block_signal : Bool)
    (thresholds : Layer2ThresholdConfig) : IgnitionBreakdown × ℚ × ℚ :=
  let absorption_strength := thresholds.absorption_score_min ≤ absorption_event.score
  let trap_score := safe_source_trap_score absorption_event
  let trap_strength := thresholds.trap_score_min ≤ trap_score
  let momentum := momentum_signal candles direction
    thresholds.momentum_lookback_bars thresholds.momentum_min_return_pct
  let confirmations :=
    (if choch_signal then 1 else 0) + (if order_block_signal then 1 else 0) +
    (if absorption_strength then 1 else 0) + (if trap_strength then 1 else 0) +
    (if momentum.1 then (1 : ℕ) else 0)
  (⟨choch_signal, order_block_signal, absorption_strength, trap_strength,
    momentum.1, confirmations⟩, trap_score, momentum.2)

/-- `_Layer2State` from `layer2/ignition_engine.py`. -/
structure Layer2State where
  active_absorption : Option AbsorptionEvent
  candles : Option (List Candle)
  last_candle_error : Option String
  last_smc_error : Option String
deriving Repr

/-- One delivery handled by `_absorption_consumer`: non-passing or
wrong-symbol events are skipped, otherwise the event replaces the active
absorption. -/
def l2_accept (config : Layer2Config) (state : Layer2State)
    (event : AbsorptionEvent) : Layer2State :=
  if event.passed = false then state
  else if event.symbol.toUpper ≠ config.symbol.toUpper then state
  else { state with active_absorption := some event }

/-- One cycle of Layer2's `_scoring_loop` (`ignition_engine.py`): TTL check,
SMC detection (its outcome an explicit `Except` parameter, failure degrading
instead of aborting), confirmation counting, and the pass branch that emits
a `PrePumpEvent` and clears the active absorption.  `fresh_id` stands for
the generated uuid. -/
def l2_tick (config : Layer2Config) (state : Layer2State) (now_ms : ℤ)
    (fresh_id : String) (smc_result : Except Unit (Bool × Bool)) :
    Layer2State × Option PrePumpEvent :=
  match state.active_absorption, state.candles with
  | none, _ => (state, none)
  | some _, none => (state, none)
  | some absorption, some candles =>
    if config.setup_ttl_ms < now_ms - absorption.ts_ms then
      ({ state with active_absorption := none }, none)
    else
      let smc := if config.enable_smartmoneyconcepts then
          match smc_result with
          | .ok flags => (flags.1, flags.2, (none : Option String))
          | .error _ => (false, false, some "SMC_ERROR")
        else (false, false, state.last_smc_error)
      let state' := { state with last_smc_error := smc.2.2 }
      let degraded := state.last_candle_error.isSome || smc.2.2.isSome
      let bd := build_ignition_breakdown absorption candles
        absorption.direction smc.1 smc.2.1 config.thresholds
      if config.thresholds.min_confirmations ≤ bd.1.confirmations then
        ({ state' with active_absorption := none },
         some { event_id := fresh_id
                ts_ms := now_ms
                symbol := config.symbol
                direction := absorption.direction
                score := (bd.1.confirmations : ℚ) / 5
                passed := true
                source_absorption_event_id := absorption.event_id
                source_trap_event_id := absorption.source_trap_event_id
                components := bd.1
                raw := ⟨none, none, none, none, none, none, some absorption.raw⟩
                degraded := degraded })
      else (state', none)

/-- The interleaved inputs a Layer2 run consumes: queue deliveries, candle
refreshes and scoring-loop cycles. -/
inductive L2Action where
  | accept (event : AbsorptionEvent)
  | setCandles (candles : List Candle)
  | tick (now_ms : ℤ) (fresh_id : String)
      (smc_result : Except Unit (Bool × Bool))

/-- One Layer2 scheduler step. -/
def l2_step (config : Layer2Config) (state : Layer2State) :
    L2Action → Layer2State × Option PrePumpEvent
  | .accept event => (l2_accept config state event, none)
  | .setCandles candles =>
      ({ state with candles := some candles, last_candle_error := none }, none)
  | .tick now_ms fresh_id smc_result => l2_tick config state now_ms fresh_id smc_result

/-- A full Layer2 run: the final state and the emitted events in order. -/
def l2_run (config : Layer2Config) (state : Layer2State) :
    List L2Action → Layer2State × List PrePumpEvent
  | [] => (state, [])
  | action :: rest =>
    let step := l2_step config state action
    let tail := l2_run config step.1 rest
    (tail.1, step.2.toList ++ tail.2)

/-- How many emitted events reference absorption id `aid`. -/
def emittedFor (aid : String) (events : List PrePumpEvent) : ℕ :=
  (events.filter fun e => e.source_absorption_event_id = aid).length

/-- How many deliveries in the trace carry absorption id `aid`. -/
def acceptsFor (aid : String) (acts : List L2Action) : ℕ :=
  (acts.filter fun a => match a with
    | .accept e => e.event_id = aid
    | _ => false).length

/-- 1 when the state's active absorption carries id `aid`, else 0. -/
def activeHolds (aid : String) (state : Layer2State) : ℕ :=
  match state.active_absorption with
  | some a => if a.event_id = aid then 1 else 0
  | none => 0

/-- The nested `raw` payload of the planner fixture in
`tests/layer3/test_planner.py`: current price 62959 with trap zones
62680/63200 and order blocks 64200/61900. -/
def samplePlanRaw : PrePumpRaw :=
  ⟨none, none, none, none, none, none,
   some ⟨some 62959, none,
     some ⟨none, some 62680, some 63200, some 64200, some 61900, none, none⟩⟩⟩

/-- The planner fixture event of `tests/layer3/test_planner.py`, for either
direction. -/
def samplePlanEvent (d : Direction) : PrePumpEvent :=
  ⟨"pre-1", 1000000, "BTCUSDT", d, 4/5, true, "abs-1", "trap-1",
   ⟨true, true, true, true, false, 4⟩, samplePlanRaw, false⟩

/-- `Layer3SizingConfig` from `config.py`. -/
structure Layer3SizingConfig where
  enabled : Bool
  min_multiplier : ℚ
  max_multiplier : ℚ
  confidence_floor : ℚ
deriving Repr

/-- Python `int()` truncation toward zero on an exact value. -/
def truncQ (x : ℚ) : ℤ := if x < 0 then ⌈x⌉ else ⌊x⌋

/-- The confidence blend of `derive_adaptive_quantity`
(`layer3/planner.py`): 0.35 signal + 0.30 confirmations + 0.20 source trap
+ 0.15 regime, each input clamped to [0,1].  `max(0, int(confirmations))`
is the identity here because confirmations are embedded as `ℕ`. -/
def sizing_confidence (event : PrePumpEvent) : ℚ :=
  let confirmations_score := min ((event.components.confirmations : ℚ) / 5) 1
  let signal_score := max 0 (min event.score 1)
  let trap_score0 : ℚ :=
    match (event.raw.source_absorption_raw).bind (fun a => a.source_trap_score) with
    | some v => v
    | none => signal_score
  let trap_score := max 0 (min trap_score0 1)
  let regime_lookup :=
    (event.raw.source_absorption_raw).bind (fun a => a.source_trap_raw) |>.bind
      (fun t => match event.direction with
        | .LONG => t.regime_long_score
        | .SHORT => t.regime_short_score)
  let regime_score0 : ℚ := match regime_lookup with
    | some v => v
    | none => 1/2
  let regime_score := max 0 (min regime_score0 1)
  (35/100) * signal_score + (30/100) * confirmations_score +
    (20/100) * trap_score + (15/100) * regime_score

/-- The floor-normalised confidence of `derive_adaptive_quantity`. -/
def sizing_normalized (event : PrePumpEvent) (sizing : Layer3SizingConfig) : ℚ :=
  let confidence := sizing_confidence event
  let floor := max 0 (min (95/100) sizing.confidence_floor)
  if confidence ≤ floor then 0
  else min ((confidence - floor) / max (1/1000000000) (1 - floor)) 1

/-- The pre-degradation sizing multiplier of `derive_adaptive_quantity`:
`min_multiplier` blended toward `max_multiplier` by the normalised
confidence. -/
def sizing_multiplier (event : PrePumpEvent) (sizing : Layer3SizingConfig) : ℚ :=
  sizing.min_multiplier + (sizing.max_multiplier - sizing.min_multiplier) *
    sizing_normalized event sizing

/-- `derive_adaptive_quantity` from `layer3/planner.py` (the confidence is
the second component). -/
def derive_adaptive_quantity (event : PrePumpEvent) (base_quantity : ℚ)
    (sizing : Layer3SizingConfig) : ℚ × ℚ :=
  if base_quantity ≤ 0 then (0, 0)
  else if ¬sizing.enabled then (base_quantity, 0)
  else
    let multiplier0 := sizing_multiplier event sizing
    let multiplier := if event.degraded then multiplier0 * (7/10) else multiplier0
    let quantity := max (base_quantity * multiplier) (base_quantity * (1/10))
    (pyRoundTo quantity 6, sizing_confidence event)

/-- `build_execution_plan` from `layer3/planner.py`. -/
def build_execution_plan (event : PrePumpEvent) (entry_price quantity : ℚ)
    (risk_config : Layer3RiskConfig) : ExecutionPlan :=
  let core := plan_core event entry_price risk_config
  let sl_pct := match event.direction with
    | .LONG => core.sl / entry_price - 1
    | .SHORT => entry_price / core.sl - 1
  let tp1_pct := match event.direction with
    | .LONG => core.tp1 / entry_price - 1
    | .SHORT => entry_price / core.tp1 - 1
  let tp2_pct := match event.direction with
    | .LONG => core.tp2 / entry_price - 1
    | .SHORT => entry_price / core.tp2 - 1
  let rr := if entry_price ≠ core.sl then |(core.tp2 - entry_price) / (entry_price - core.sl)|
    else risk_config.tp2_r_multiple
  { entry := pyRoundTo entry_price 2
    sl := pyRoundTo core.sl 2
    tp1 := pyRoundTo core.tp1 2
    tp2 := pyRoundTo core.tp2 2
    rr := pyRoundTo rr 2
    sl_pct := sl_pct
    tp1_pct := tp1_pct
    tp2_pct := tp2_pct
    quantity := quantity
    risk_amount := |entry_price - core.sl| * quantity }

/-!  ## Layer3 — executor (`layer3/executor.py`) -/

/-- The `order_ids` map assembled by the executor (keys `entry`, `sl`,
`tp1`, `tp2`). -/
structure OrderIds where
  entry : String
  sl : String
  tp1 : String
  tp2 : String
deriving Repr

/-- `ExecutionEvent` from `core/types.py` (the `raw` metadata map is not
read by any embedded code and is omitted). -/
structure ExecutionEvent where
  event_id : String
  ts_ms : ℤ
  symbol : String
  direction : Direction
  passed : Bool
  source_pre_pump_event_id : String
  plan : ExecutionPlan
  order_ids : OrderIds
  degraded : Bool
deriving Repr

/-- `Layer3GuardConfig` from `config.py`. -/
structure Layer3GuardConfig where
  min_seconds_between_entries : ℚ
  max_entries_per_hour : ℕ
deriving Repr

/-- The fields of `Layer3Config` (`config.py`) read by the embedded consumer
loop. -/
structure Layer3Config where
  symbol : String
  pre_pump_ttl_ms : ℤ
  fixed_quantity : ℚ
  telegram_enabled : Bool
  guard : Layer3GuardConfig
  risk : Layer3RiskConfig
  sizing : Layer3SizingConfig
deriving Repr

/-- `int(min_seconds_between_entries * 1000)` from `_process_event`. -/
def minGapMs (config : Layer3Config) : ℤ :=
  truncQ (config.guard.min_seconds_between_entries * 1000)

/-- The guard/dedup state owned by `run_layer3`'s consumer
(`last_entry_ts_ms`, `recent_entry_ts`, `seen_source_event_ids`,
`seen_source_fifo`; the set is embedded as a list queried by membership). -/
structure Layer3State where
  last_entry_ts_ms : Option ℤ
  recent_entry_ts : List ℤ
  seen_source_event_ids : List String
  seen_source_fifo : List String
deriving Repr

/-- The cooldown guard of `_process_event`: a previous entry exists, the
cooldown is configured, and the elapsed time is below the gap. -/
def cooldown_active (config : Layer3Config) (state : Layer3State)
    (now_ms : ℤ) : Bool :=
  match state.last_entry_ts_ms with
  | some last => 0 < config.guard.min_seconds_between_entries ∧
      now_ms - last < minGapMs config
  | none => false

/-- What one `_process_event` call produces: the updated guard state, the
emitted event if any, and whether the best-effort error alert of the
`except` handler was attempted. -/
structure ProcessResult where
  state : Layer3State
  emitted : Option ExecutionEvent
  error_alert : Bool
deriving Repr

/-- The entry-price/order-placement outcome of the `try` block in paper
mode: `derive_entry_price`, or the raised `RuntimeError` when no price is
derivable. -/
def paper_exec_result (event : PrePumpEvent) : Except Unit ℚ :=
  match derive_entry_price event with
  | some entry_price => Except.ok entry_price
  | none => Except.error ()

/-- `_process_event` from `layer3/executor.py` as a state transition.  The
`_now_ms()` reads within one call are collapsed into `now_ms`; the fallible
section of the `try` block (order placement in live mode, entry-price
derivation in paper mode — see `paper_exec_result`) enters as `exec_result`;
`notify_ok` is the outcome of the non-fatal Telegram send and `order_ids`
the ids produced by the mode-specific branch; `fresh_id` is the generated
uuid.  The `except` handler converts any failure into a best-effort alert
and a normal return, so the transition is total — the consumer loop
continues with the next event. -/
def process_event (config : Layer3Config) (state : Layer3State)
    (event : PrePumpEvent) (now_ms : ℤ) (exec_result : Except Unit ℚ)
    (notify_ok : Bool) (fresh_id : String) (order_ids : OrderIds) :
    ProcessResult :=
  if event.passed = false then ⟨state, none, false⟩
  else if event.symbol.toUpper ≠ config.symbol.toUpper then ⟨state, none, false⟩
  else if config.pre_pump_ttl_ms < now_ms - event.ts_ms then ⟨state, none, false⟩
  else if event.event_id ∈ state.seen_source_event_ids then ⟨state, none, false⟩
  else if cooldown_active config state now_ms then ⟨state, none, false⟩
  else
    let recent := state.recent_entry_ts.dropWhile (fun t => t < now_ms - 3600000)
    let state_pruned := { state with recent_entry_ts := recent }
    if 0 < config.guard.max_entries_per_hour ∧
        config.guard.max_entries_per_hour ≤ recent.length then
      ⟨state_pruned, none, false⟩
    else
      match exec_result with
      | .error _ => ⟨state_pruned, none, config.telegram_enabled⟩
      | .ok entry_price =>
        let plan := build_execution_plan event entry_price
          config.fixed_quantity config.risk
        let degraded := config.telegram_enabled ∧ notify_ok = false
        let execution_event : ExecutionEvent :=
          ⟨fresh_id, now_ms, config.symbol, event.direction, true,
           event.event_id, plan, order_ids, degraded⟩
        let evicted := if state_pruned.seen_source_fifo.length = 4000 then
            match state_pruned.seen_source_fifo with
            | old_id :: fifo_rest =>
                (state_pruned.seen_source_event_ids.erase old_id, fifo_rest)
            | [] => (state_pruned.seen_source_event_ids, [])
          else (state_pruned.seen_source_event_ids,
            state_pruned.seen_source_fifo)
        ⟨{ last_entry_ts_ms := some now_ms
           recent_entry_ts := recent ++ [now_ms]
           seen_source_event_ids := evicted.1 ++ [event.event_id]
           seen_source_fifo := evicted.2 ++ [event.event_id] },
         some execution_event, false⟩

/-- One queue delivery consumed by the Layer3 loop, with the explicit
outcomes of its I/O interactions. -/
structure L3Input where
  event : PrePumpEvent
  now_ms : ℤ
  exec_result : Except Unit ℚ
  notify_ok : Bool
  fresh_id : String
  order_ids : OrderIds

/-- A run of Layer3's consumer loop: the final guard state and the emitted
execution events in order. -/
def l3_run (config : Layer3Config) (state : Layer3State) :
    List L3Input → Layer3State × List ExecutionEvent
  | [] => (state, [])
  | inp :: rest =>
    let step := process_event config state inp.event inp.now_ms inp.exec_result
      inp.notify_ok inp.fresh_id inp.order_ids
    let tail := l3_run config step.state rest
    (tail.1, step.emitted.toList ++ tail.2)

/-- Pairwise minimum spacing between emission timestamps. -/
def gapOk (gap : ℤ) (E : List ℤ) : Prop :=
  List.Pairwise (fun a b => a + gap ≤ b) E

/-- How many timestamps fall in the closed one-hour window ending at `t`. -/
def windowCount (E : List ℤ) (t : ℤ) : ℕ :=
  (E.filter fun e => decide (t - 3600000 ≤ e ∧ e ≤ t)).length

/-- Synchronisation between the guard state and the timestamps `E` of the
events emitted so far, at a run whose processed instants are bounded by
`T`: every emission is in the past, the cooldown timestamp bounds them all,
and the rolling-hour record is `E` minus an expired prefix. -/
def l3_sync (s : Layer3State) (E : List ℤ) (T : ℤ) : Prop :=
  (∀ e ∈ E, e ≤ T) ∧
  (match s.last_entry_ts_ms with
   | none => E = []
   | some l => ∀ e ∈ E, e ≤ l) ∧
  (∃ P, E = P ++ s.recent_entry_ts ∧ ∀ e ∈ P, e < T - 3600000)

end Phantom

namespace Phantom

/-- Inserting into a sorted list is a permutation of consing. -/
theorem insertRat_perm (x : ℚ) (l : List ℚ) : List.Perm (insertRat x l) (x :: l) := by
  induction l with
  | nil => simp [insertRat]
  | cons y ys ih =>
    unfold insertRat
    split
    · exact (ih.cons y).trans (List.Perm.swap x y ys)
    · exact List.Perm.refl _

/-- `sortRat` permutes its input. -/
theorem sortRat_perm (l : List ℚ) : List.Perm (sortRat l) l := by
  induction l with
  | nil => simp [sortRat]
  | cons x xs ih =>
    unfold sortRat
    exact (insertRat_perm x (sortRat xs)).trans (ih.cons x)

/-- Round-half-to-even never moves a value by more than one half, downward. -/
theorem roundHalfEven_ge (x : ℚ) : x - 1/2 ≤ (roundHalfEven x : ℚ) := by
  have hfl : (⌊x⌋ : ℚ) ≤ x := Int.floor_le x
  have hfu : x < (⌊x⌋ : ℚ) + 1 := Int.lt_floor_add_one x
  unfold roundHalfEven
  split_ifs <;> push_cast <;> linarith

/-- Round-half-to-even never moves a value by more than one half, upward. -/
theorem roundHalfEven_le (x : ℚ) : (roundHalfEven x : ℚ) ≤ x + 1/2 := by
  have hfl : (⌊x⌋ : ℚ) ≤ x := Int.floor_le x
  have hfu : x < (⌊x⌋ : ℚ) + 1 := Int.lt_floor_add_one x
  unfold roundHalfEven
  split_ifs with h1 h2
  · linarith
  · push_cast
    have : 1/2 ≤ x - (⌊x⌋ : ℚ) := le_of_lt h2
    linarith
  · have hnot : ¬(x - (⌊x⌋ : ℚ) < 1/2) := h1
    linarith [not_lt.mp hnot]
  · push_cast
    have h2' : ¬(1/2 < x - (⌊x⌋ : ℚ)) := h2
    have := not_lt.mp h2'
    linarith

/-- An in-bounds `getD` access returns an element of the list. -/
theorem getD_mem_of_lt {l : List ℚ} {i : ℕ} (h : i < l.length) (d : ℚ) :
    l.getD i d ∈ l := by
  rw [List.getD_eq_getElem l d h]
  exact List.getElem_mem h

/-- C2: for every bounded channel (capacity > 0) holding at most its capacity,
`_emit_with_drop_oldest` (which is total — the producer is never blocked)
keeps the queue within its configured capacity; when the channel is at
capacity exactly the oldest queued item is discarded and the drop counter is
incremented by 1 before the new event is enqueued, and otherwise the event is
appended with the counter untouched. -/
theorem c2_bounded_channel_drop_oldest {α : Type} (q : Channel α) (e : α) (d : ℕ)
    (hcap : 0 < q.maxsize) (hlen : q.items.length ≤ q.maxsize) :
    ((emitWithDropOldest q e d).1).items.length ≤ q.maxsize ∧
    (q.items.length = q.maxsize →
      (emitWithDropOldest q e d).1.items = q.items.tail ++ [e] ∧
      (emitWithDropOldest q e d).2 = d + 1) ∧
    (q.items.length < q.maxsize →
      (emitWithDropOldest q e d).1.items = q.items ++ [e] ∧
      (emitWithDropOldest q e d).2 = d) := by
  unfold emitWithDropOldest
  by_cases hfull : q.maxsize ≤ q.items.length
  · have heq : q.items.length = q.maxsize := le_antisymm hlen hfull
    have hne : q.items ≠ [] := by
      intro h
      rw [h] at heq
      simp at heq
      omega
    refine ⟨?_, fun _ => ⟨by simp [hcap, hfull], by simp [hcap, hfull]⟩,
      fun hlt => absurd heq (by omega)⟩
    simp [hcap, hfull, List.length_tail]
    omega
  · have hlt : q.items.length < q.maxsize := by omega
    refine ⟨?_, fun heq => absurd heq (by omega),
      fun _ => ⟨by simp [hfull], by simp [hfull]⟩⟩
    simp [hfull]
    omega

/-- C2 witness: a full capacity-1 channel holding the "old" event `0`; after
emitting the new event `1` the channel holds exactly `[1]` and the drop
counter went from 0 to 1, while the capacity bound still holds. -/
theorem c2_bounded_channel_drop_oldest_witness :
    ((emitWithDropOldest (Channel.mk 1 [0]) 1 0).1).items.length ≤ 1 ∧
    (emitWithDropOldest (Channel.mk 1 [0]) 1 0).1.items = [1] ∧
    (emitWithDropOldest (Channel.mk 1 [0]) 1 0).2 = 1 := by
  have h := c2_bounded_channel_drop_oldest (Channel.mk 1 [0]) 1 0
    (by decide) (by decide)
  exact ⟨h.1, (h.2.1 (by decide)).1, (h.2.1 (by decide)).2⟩

/-- C3 counterexample: with the regime filter enabled, a regime-LONG score of
0 (below `min_score = 0.55`) forces the LONG gate to fail, yet with both
directional scores tied at 1 the cycle still emits direction LONG — an
emitted `TrapSetupEvent` whose direction did not pass the gate for that
direction, refuting the claim as stated. -/
theorem c3_emitted_direction_counterexample :
    l0_cycle [[OIObservation.mk 0 1]] 300000 300000 100
      (SignalBreakdown.mk 1 1 1 1 1) (SignalWeights.mk (2/5) (3/10) (3/10))
      (ThresholdConfig.mk (7/10) (1/2)) (7/10)
      (RegimeFilterConfig.mk true (11/20)) 0 1 = some (Direction.LONG, 1) ∧
    (RegimeFilterConfig.mk true (11/20)).enabled = true ∧
    (0 : ℚ) < (RegimeFilterConfig.mk true (11/20)).min_score ∧
    l0_long_pass (SignalBreakdown.mk 1 1 1 1 1) (SignalWeights.mk (2/5) (3/10) (3/10))
      (ThresholdConfig.mk (7/10) (1/2)) (7/10)
      (RegimeFilterConfig.mk true (11/20)) 0 = false := by
  refine ⟨?_, rfl, by norm_num, ?_⟩ <;>
    norm_num [l0_cycle, l0_long_pass, l0_short_pass, passes_gate,
      compute_directional_score, SignalBreakdown.for_direction,
      has_warmup_window, spansWarmup]

/-- C3 amended: whenever a Layer0 scoring cycle emits a (direction, score)
pair, an emitted SHORT passed the SHORT gate (score at least the active
threshold, at least 2 of 3 components at the component threshold, and the
regime filter when enabled) and strictly outscored LONG; an emitted LONG
carries the LONG score and arises either because LONG passed or because only
SHORT passed without strictly outscoring LONG (in which case the emitted
LONG direction may not itself have passed); when both directions pass, the
higher-scoring direction is emitted with ties favoring LONG. -/
theorem c3_emitted_direction_amended
    (histories : List (List OIObservation)) (now_ms warmup_ms : ℤ)
    (current_price : ℚ) (breakdown : SignalBreakdown) (weights : SignalWeights)
    (thresholds : ThresholdConfig) (adaptive_threshold : ℚ)
    (regime : RegimeFilterConfig) (regime_long_score regime_short_score : ℚ)
    (d : Direction) (s : ℚ)
    (h : l0_cycle histories now_ms warmup_ms current_price breakdown weights
      thresholds adaptive_threshold regime regime_long_score regime_short_score
      = some (d, s)) :
    (d = Direction.SHORT →
      l0_short_pass breakdown weights thresholds adaptive_threshold regime
        regime_short_score = true ∧
      passes_gate breakdown Direction.SHORT
        (compute_directional_score breakdown Direction.SHORT weights)
        thresholds (some adaptive_threshold) = true ∧
      (regime.enabled = true → regime.min_score ≤ regime_short_score) ∧
      s = compute_directional_score breakdown Direction.SHORT weights ∧
      compute_directional_score breakdown Direction.LONG weights <
        compute_directional_score breakdown Direction.SHORT weights) ∧
    (d = Direction.LONG →
      s = compute_directional_score breakdown Direction.LONG weights ∧
      (l0_long_pass breakdown weights thresholds adaptive_threshold regime
          regime_long_score = true ∨
        (l0_short_pass breakdown weights thresholds adaptive_threshold regime
            regime_short_score = true ∧
          compute_directional_score breakdown Direction.SHORT weights ≤
            compute_directional_score breakdown Direction.LONG weights))) ∧
    (l0_long_pass breakdown weights thresholds adaptive_threshold regime
        regime_long_score = true →
      l0_short_pass breakdown weights thresholds adaptive_threshold regime
        regime_short_score = true →
      ((compute_directional_score breakdown Direction.LONG weights <
          compute_directional_score breakdown Direction.SHORT weights →
        d = Direction.SHORT) ∧
       (compute_directional_score breakdown Direction.SHORT weights ≤
          compute_directional_score breakdown Direction.LONG weights →
        d = Direction.LONG))) := by
  unfold l0_cycle at h
  split at h
  · exact absurd h (by simp)
  split at h
  · exact absurd h (by simp)
  split at h
  case isTrue hpass =>
    split at h
    case isTrue hsel =>
      simp only [Option.some.injEq, Prod.mk.injEq] at h
      obtain ⟨hd, hs⟩ := h
      have hsp := hsel.1
      have hgate : passes_gate breakdown Direction.SHORT
          (compute_directional_score breakdown Direction.SHORT weights)
          thresholds (some adaptive_threshold) = true ∧
          (regime.enabled = true → regime.min_score ≤ regime_short_score) := by
        unfold l0_short_pass at hsp
        split at hsp
        · exact absurd hsp (by simp)
        case isFalse hcond =>
          refine ⟨hsp, fun hen => ?_⟩
          by_contra hlt
          exact hcond ⟨hen, not_le.mp hlt⟩
      refine ⟨fun _ => ⟨hsel.1, hgate.1, hgate.2, hs.symm, hsel.2⟩,
        fun hdl => ?_, fun _ _ => ⟨fun _ => hd.symm, fun hle => ?_⟩⟩
      · rw [← hd] at hdl
        exact absurd hdl (by simp)
      · exact absurd hsel.2 (not_lt.mpr hle)
    case isFalse hsel =>
      simp only [Option.some.injEq, Prod.mk.injEq] at h
      obtain ⟨hd, hs⟩ := h
      refine ⟨fun hds => ?_, fun _ => ⟨hs.symm, ?_⟩,
        fun hlp hsp => ⟨fun hlt => absurd ⟨hsp, hlt⟩ hsel, fun _ => hd.symm⟩⟩
      · rw [← hd] at hds
        exact absurd hds (by simp)
      · rcases hpass with hlp | hsp
        · exact Or.inl hlp
        · refine Or.inr ⟨hsp, ?_⟩
          by_contra hgt
          exact hsel ⟨hsp, not_le.mp hgt⟩
  case isFalse =>
    exact absurd h (by simp)

/-- C3 amended witness: the counterexample inputs instantiate the amended
theorem; the emitted LONG direction indeed arises from the
only-SHORT-passes-without-outscoring branch. -/
theorem c3_emitted_direction_amended_witness :
    (1 : ℚ) = compute_directional_score (SignalBreakdown.mk 1 1 1 1 1)
      Direction.LONG (SignalWeights.mk (2/5) (3/10) (3/10)) ∧
    (l0_long_pass (SignalBreakdown.mk 1 1 1 1 1)
        (SignalWeights.mk (2/5) (3/10) (3/10)) (ThresholdConfig.mk (7/10) (1/2))
        (7/10) (RegimeFilterConfig.mk true (11/20)) 0 = true ∨
      (l0_short_pass (SignalBreakdown.mk 1 1 1 1 1)
          (SignalWeights.mk (2/5) (3/10) (3/10)) (ThresholdConfig.mk (7/10) (1/2))
          (7/10) (RegimeFilterConfig.mk true (11/20)) 1 = true ∧
        compute_directional_score (SignalBreakdown.mk 1 1 1 1 1) Direction.SHORT
            (SignalWeights.mk (2/5) (3/10) (3/10)) ≤
          compute_directional_score (SignalBreakdown.mk 1 1 1 1 1) Direction.LONG
            (SignalWeights.mk (2/5) (3/10) (3/10)))) :=
  (c3_emitted_direction_amended [[OIObservation.mk 0 1]] 300000 300000 100
    (SignalBreakdown.mk 1 1 1 1 1) (SignalWeights.mk (2/5) (3/10) (3/10))
    (ThresholdConfig.mk (7/10) (1/2)) (7/10)
    (RegimeFilterConfig.mk true (11/20)) 0 1 Direction.LONG 1
    (by norm_num [l0_cycle, l0_long_pass, l0_short_pass, passes_gate,
      compute_directional_score, SignalBreakdown.for_direction,
      has_warmup_window, spansWarmup])).2.1 rfl

/-- C4 counterexample: with two configured exchanges, the first of which has
an OI history spanning the warmup window while the second has an empty OI
history (so its history does not yet span the warmup window), the scoring
cycle still runs and emits an event — refuting the claim that no scoring
happens until EVERY exchange's OI history covers the warmup window.  (The
code's `has_warmup_window` returns true as soon as ANY history spans it.) -/
theorem c4_warmup_every_exchange_counterexample :
    l0_cycle [[OIObservation.mk 0 1], []] 300000 300000 100
      (SignalBreakdown.mk 1 1 1 1 1) (SignalWeights.mk (2/5) (3/10) (3/10))
      (ThresholdConfig.mk (7/10) (1/2)) (7/10)
      (RegimeFilterConfig.mk false (11/20)) 1 1 = some (Direction.LONG, 1) ∧
    ([] : List OIObservation) ∈ [[OIObservation.mk 0 1], []] ∧
    spansWarmup ([] : List OIObservation) 300000 300000 = false := by
  refine ⟨?_, by simp, rfl⟩
  norm_num [l0_cycle, l0_long_pass, l0_short_pass, passes_gate,
    compute_directional_score, SignalBreakdown.for_direction,
    has_warmup_window, spansWarmup]

/-- C4 amended: a Layer0 scoring cycle is suppressed (no emission) at every
instant at which NO configured exchange's OI history spans the warmup
window, and conversely the warmup guard opens as soon as AT LEAST ONE
non-empty history covers `warmup_ms` of elapsed time (not once every
exchange's history does, as the claim stated). -/
theorem c4_warmup_gate_amended
    (histories : List (List OIObservation)) (now_ms warmup_ms : ℤ)
    (current_price : ℚ) (breakdown : SignalBreakdown) (weights : SignalWeights)
    (thresholds : ThresholdConfig) (adaptive_threshold : ℚ)
    (regime : RegimeFilterConfig) (regime_long_score regime_short_score : ℚ) :
    ((∀ history ∈ histories, spansWarmup history now_ms warmup_ms = false) →
      l0_cycle histories now_ms warmup_ms current_price breakdown weights
        thresholds adaptive_threshold regime regime_long_score
        regime_short_score = none) ∧
    ((∃ history ∈ histories, spansWarmup history now_ms warmup_ms = true) →
      has_warmup_window histories now_ms warmup_ms = true) := by
  constructor
  · intro hall
    have hw : has_warmup_window histories now_ms warmup_ms = false := by
      unfold has_warmup_window
      split
      · rfl
      · simp only [List.any_eq_false, Bool.not_eq_true]
        exact hall
    unfold l0_cycle
    simp [hw]
  · rintro ⟨history, hmem, hspan⟩
    unfold has_warmup_window
    split
    case isTrue hemp =>
      rw [List.isEmpty_iff] at hemp
      rw [hemp] at hmem
      exact absurd hmem (List.not_mem_nil _)
    case isFalse =>
      simp only [List.any_eq_true]
      exact ⟨history, hmem, hspan⟩

/-- C4 amended witness: with a single exchange whose only OI observation is
too recent, the cycle emits nothing; and the two-exchange counterexample map
(one spanning history, one empty) opens the warmup guard. -/
theorem c4_warmup_gate_amended_witness :
    l0_cycle [[OIObservation.mk 200000 1]] 300000 300000 100
      (SignalBreakdown.mk 1 1 1 1 1) (SignalWeights.mk (2/5) (3/10) (3/10))
      (ThresholdConfig.mk (7/10) (1/2)) (7/10)
      (RegimeFilterConfig.mk false (11/20)) 1 1 = none ∧
    has_warmup_window [[OIObservation.mk 0 1], []] 300000 300000 = true := by
  constructor
  · exact (c4_warmup_gate_amended [[OIObservation.mk 200000 1]] 300000 300000 100
      (SignalBreakdown.mk 1 1 1 1 1) (SignalWeights.mk (2/5) (3/10) (3/10))
      (ThresholdConfig.mk (7/10) (1/2)) (7/10)
      (RegimeFilterConfig.mk false (11/20)) 1 1).1
      (by intro history hmem; simp at hmem; rw [hmem]; norm_num [spansWarmup])
  · exact (c4_warmup_gate_amended [[OIObservation.mk 0 1], []] 300000 300000 100
      (SignalBreakdown.mk 1 1 1 1 1) (SignalWeights.mk (2/5) (3/10) (3/10))
      (ThresholdConfig.mk (7/10) (1/2)) (7/10)
      (RegimeFilterConfig.mk false (11/20)) 1 1).2
      ⟨[OIObservation.mk 0 1], by simp, by norm_num [spansWarmup]⟩

/-- C7: `compute_adaptive_threshold` returns the static base threshold when
the adaptive gate is disabled or the score history is short of the sample
requirement, and otherwise returns the nearest-rank (round-half-even index,
no interpolation) quantile of the ascending-sorted scores clamped into
`[max(base_threshold, floor), ceiling]`; the result then lies in that
interval and is either one of its endpoints or one of the observed scores. -/
theorem c7_compute_adaptive_threshold (cfg : AdaptiveGateConfig) (base : ℚ)
    (hist : List ℚ) :
    (cfg.enabled = false →
      compute_adaptive_threshold hist cfg base = base) ∧
    (hist.length < max 1 cfg.min_samples →
      compute_adaptive_threshold hist cfg base = base) ∧
    (cfg.enabled = true → max 1 cfg.min_samples ≤ hist.length →
      max base cfg.floor ≤ cfg.ceiling →
      compute_adaptive_threshold hist cfg base =
        clamp ((sortRat hist).getD
            (roundHalfEven (((hist.length : ℚ) - 1) *
              clamp cfg.quantile 0 1)).toNat 0)
          (max base cfg.floor) cfg.ceiling ∧
      max base cfg.floor ≤ compute_adaptive_threshold hist cfg base ∧
      compute_adaptive_threshold hist cfg base ≤ cfg.ceiling ∧
      (compute_adaptive_threshold hist cfg base = max base cfg.floor ∨
       compute_adaptive_threshold hist cfg base = cfg.ceiling ∨
       compute_adaptive_threshold hist cfg base ∈ hist)) := by
  refine ⟨fun hdis => ?_, fun hshort => ?_, fun hen hlen hceil => ?_⟩
  · unfold compute_adaptive_threshold
    rw [if_pos]
    simp [hdis]
  · unfold compute_adaptive_threshold
    by_cases he : cfg.enabled
    · rw [if_neg (by simp [he]), if_pos hshort]
    · rw [if_pos (by simp [he])]
  · have hlenq : ((sortRat hist).length : ℚ) = (hist.length : ℚ) := by
      exact_mod_cast congrArg Nat.cast (sortRat_perm hist).length_eq
    have hval : compute_adaptive_threshold hist cfg base =
        clamp ((sortRat hist).getD
            (roundHalfEven (((hist.length : ℚ) - 1) *
              clamp cfg.quantile 0 1)).toNat 0)
          (max base cfg.floor) cfg.ceiling := by
      simp only [compute_adaptive_threshold]
      rw [if_neg (by simp [hen]), if_neg (not_lt.mpr hlen),
        if_neg (not_lt.mpr hceil), hlenq]
    have hn1 : 1 ≤ hist.length := le_trans (le_max_left 1 cfg.min_samples) hlen
    have hq0 : (0 : ℚ) ≤ clamp cfg.quantile 0 1 := le_max_left 0 _
    have hq1 : clamp cfg.quantile 0 1 ≤ 1 :=
      max_le zero_le_one (min_le_left 1 cfg.quantile)
    have hx0 : (0 : ℚ) ≤ ((hist.length : ℚ) - 1) * clamp cfg.quantile 0 1 := by
      apply mul_nonneg _ hq0
      have : (1 : ℚ) ≤ (hist.length : ℚ) := by exact_mod_cast hn1
      linarith
    have hx1 : ((hist.length : ℚ) - 1) * clamp cfg.quantile 0 1 ≤
        (hist.length : ℚ) - 1 := by
      have h1 : (1 : ℚ) ≤ (hist.length : ℚ) := by exact_mod_cast hn1
      nlinarith
    have hidx0 : 0 ≤ roundHalfEven (((hist.length : ℚ) - 1) *
        clamp cfg.quantile 0 1) := by
      by_contra hneg
      have hle : roundHalfEven (((hist.length : ℚ) - 1) *
          clamp cfg.quantile 0 1) ≤ -1 := by omega
      have := roundHalfEven_ge (((hist.length : ℚ) - 1) * clamp cfg.quantile 0 1)
      have hcast : (roundHalfEven (((hist.length : ℚ) - 1) *
          clamp cfg.quantile 0 1) : ℚ) ≤ -1 := by exact_mod_cast hle
      linarith
    have hidxlt : (roundHalfEven (((hist.length : ℚ) - 1) *
        clamp cfg.quantile 0 1)).toNat < (sortRat hist).length := by
      have hub := roundHalfEven_le (((hist.length : ℚ) - 1) * clamp cfg.quantile 0 1)
      have hlt : (roundHalfEven (((hist.length : ℚ) - 1) *
          clamp cfg.quantile 0 1) : ℚ) < (hist.length : ℚ) := by linarith
      have hltZ : roundHalfEven (((hist.length : ℚ) - 1) * clamp cfg.quantile 0 1) <
          (hist.length : ℤ) := by exact_mod_cast hlt
      rw [(sortRat_perm hist).length_eq]
      omega
    have hmem : (sortRat hist).getD
        (roundHalfEven (((hist.length : ℚ) - 1) *
          clamp cfg.quantile 0 1)).toNat 0 ∈ hist :=
      (sortRat_perm hist).mem_iff.mp (getD_mem_of_lt hidxlt 0)
    set dyn := (sortRat hist).getD
      (roundHalfEven (((hist.length : ℚ) - 1) * clamp cfg.quantile 0 1)).toNat 0
    refine ⟨hval, ?_, ?_, ?_⟩
    · rw [hval]
      exact le_max_left _ _
    · rw [hval]
      exact max_le hceil (min_le_left _ _)
    · rw [hval]
      unfold clamp
      rcases le_total dyn (max base cfg.floor) with hd | hd
      · left
        have : min cfg.ceiling dyn ≤ max base cfg.floor :=
          le_trans (min_le_right _ _) hd
        exact max_eq_left this
      · rcases le_total dyn cfg.ceiling with hc | hc
        · right; right
          rw [min_eq_right hc, max_eq_right hd]
          exact hmem
        · right; left
          rw [min_eq_left hc]
          exact max_eq_right hceil

/-- C7 witness: 25 scores at 0.50, 15 at 0.72 and 60 at 0.88 with
`min_samples = 40` (and the default quantile 0.75, floor 0.70, ceiling 0.90,
base 0.70): the adaptive gate is active and the computed dynamic threshold
lies between the configured floor and ceiling. -/
theorem c7_compute_adaptive_threshold_witness :
    (7 : ℚ)/10 ≤ compute_adaptive_threshold
      (List.replicate 25 ((1 : ℚ)/2) ++ List.replicate 15 ((18 : ℚ)/25) ++
        List.replicate 60 ((22 : ℚ)/25))
      (AdaptiveGateConfig.mk true 240 (3/4) (7/10) (9/10) 40) (7/10) ∧
    compute_adaptive_threshold
      (List.replicate 25 ((1 : ℚ)/2) ++ List.replicate 15 ((18 : ℚ)/25) ++
        List.replicate 60 ((22 : ℚ)/25))
      (AdaptiveGateConfig.mk true 240 (3/4) (7/10) (9/10) 40) (7/10) ≤ 9/10 := by
  have h := (c7_compute_adaptive_threshold
    (AdaptiveGateConfig.mk true 240 (3/4) (7/10) (9/10) 40) (7/10)
    (List.replicate 25 ((1 : ℚ)/2) ++ List.replicate 15 ((18 : ℚ)/25) ++
      List.replicate 60 ((22 : ℚ)/25))).2.2
    rfl (by simp) (by norm_num)
  refine ⟨le_trans (by norm_num) h.2.1, h.2.2.1⟩

/-- C8: on a window of at least two trades whose (time-ordered) end price
exceeds its start price while the net signed notional is negative,
`compute_cvd_scores` flags a hidden LONG divergence and floors the LONG CVD
component at 0.6; symmetrically for SHORT; and
`compute_absorption_score` adds a flat +0.1 bonus to the weighted blend
before the [0,1] clamp whenever the direction's hidden-divergence flag is
set. -/
theorem c8_cvd_hidden_divergence (trades : List TradeTick) (cvd_scale_usd : ℚ) :
    (2 ≤ trades.length →
      0 < (sortTrades trades).headI.price →
      (sortTrades trades).headI.price < (sortTrades trades).getLastI.price →
      ((sortTrades trades).map signed_notional).sum < 0 →
      (compute_cvd_scores trades cvd_scale_usd).hidden_long = true ∧
      3/5 ≤ (compute_cvd_scores trades cvd_scale_usd).long_score) ∧
    (2 ≤ trades.length →
      0 < (sortTrades trades).headI.price →
      (sortTrades trades).getLastI.price < (sortTrades trades).headI.price →
      0 < ((sortTrades trades).map signed_notional).sum →
      (compute_cvd_scores trades cvd_scale_usd).hidden_short = true ∧
      3/5 ≤ (compute_cvd_scores trades cvd_scale_usd).short_score) ∧
    (∀ (b : AbsorptionBreakdown) (w : Layer1Weights),
      b.hidden_divergence_long = true →
      compute_absorption_score b Direction.LONG w =
        clamp (w.whale_net_flow * b.whale_net_flow_long +
          w.twap_uniformity * b.twap_uniformity_long + w.cvd * b.cvd_long +
          w.stablecoin_inflow * b.stablecoin_inflow + 1/10)) ∧
    (∀ (b : AbsorptionBreakdown) (w : Layer1Weights),
      b.hidden_divergence_short = true →
      compute_absorption_score b Direction.SHORT w =
        clamp (w.whale_net_flow * b.whale_net_flow_short +
          w.twap_uniformity * b.twap_uniformity_short + w.cvd * b.cvd_short +
          w.stablecoin_inflow * b.stablecoin_inflow + 1/10)) := by
  refine ⟨fun h2 hstart hup hcvd => ?_, fun h2 hstart hdown hcvd => ?_,
    fun b w hb => ?_, fun b w hb => ?_⟩
  · have hne : ¬trades.length < 2 := by omega
    have hsp : ¬(sortTrades trades).headI.price ≤ 0 := not_le.mpr hstart
    have hpdp : 0 < (sortTrades trades).getLastI.price /
        (sortTrades trades).headI.price - 1 := by
      have := (one_lt_div hstart).mpr hup
      linarith
    simp only [compute_cvd_scores, hne, if_false, hsp]
    constructor
    · simp only [decide_eq_true_eq]
      exact ⟨hpdp, hcvd⟩
    · rw [if_pos ⟨hpdp, hcvd⟩]
      exact le_max_right _ _
  · have hne : ¬trades.length < 2 := by omega
    have hsp : ¬(sortTrades trades).headI.price ≤ 0 := not_le.mpr hstart
    have hpdp : (sortTrades trades).getLastI.price /
        (sortTrades trades).headI.price - 1 < 0 := by
      have := (div_lt_one hstart).mpr hdown
      linarith
    simp only [compute_cvd_scores, hne, if_false, hsp]
    constructor
    · simp only [decide_eq_true_eq]
      exact ⟨hpdp, hcvd⟩
    · rw [if_pos ⟨hpdp, hcvd⟩]
      exact le_max_right _ _
  · simp only [compute_absorption_score, AbsorptionBreakdown.score_components,
      AbsorptionBreakdown.hidden_divergence_for, hb, if_true]
  · simp only [compute_absorption_score, AbsorptionBreakdown.score_components,
      AbsorptionBreakdown.hidden_divergence_for, hb, if_true]

/-- C8 witness: two trades — a large aggressive sell of notional 200 at price
100 followed by a buy of notional 101 at price 101 — give a rising price with
negative CVD; the hidden LONG divergence fires and the LONG CVD score is at
least 0.6. -/
theorem c8_cvd_hidden_divergence_witness :
    (compute_cvd_scores
      [TradeTick.mk "binance" "BTCUSDT" 100 2 true 0,
       TradeTick.mk "binance" "BTCUSDT" 101 1 false 1000] 2000000).hidden_long
      = true ∧
    3/5 ≤ (compute_cvd_scores
      [TradeTick.mk "binance" "BTCUSDT" 100 2 true 0,
       TradeTick.mk "binance" "BTCUSDT" 101 1 false 1000] 2000000).long_score :=
  (c8_cvd_hidden_divergence
    [TradeTick.mk "binance" "BTCUSDT" 100 2 true 0,
     TradeTick.mk "binance" "BTCUSDT" 101 1 false 1000] 2000000).1
    (by norm_num)
    (by norm_num [sortTrades, insertByTs, List.headI])
    (by norm_num [sortTrades, insertByTs, List.headI, List.getLastI])
    (by norm_num [sortTrades, insertByTs, signed_notional, TradeTick.notional])

/-- `pyRoundTo _ 2` fixes every rational that is an integer multiple of
`1/100`. -/
theorem pyRoundTo_two_of_int (x : ℚ) (m : ℤ) (h : x * 100 = (m : ℚ)) :
    pyRoundTo x 2 = x := by
  have h2 : x * (10 : ℚ) ^ 2 = (m : ℚ) := by
    norm_num
    exact h
  unfold pyRoundTo roundHalfEven
  rw [h2, Int.floor_intCast]
  norm_num
  field_simp
  linarith

/-- The stop-loss of the LONG plan branch. -/
theorem plan_core_long_sl (zone_low ob_above : Option ℚ) (entry_price : ℚ)
    (cfg : Layer3RiskConfig) :
    (plan_core_long zone_low ob_above entry_price cfg).sl =
      match zone_low with
      | some z => if z < entry_price then z
          else entry_price * (1 - cfg.default_sl_buffer_pct)
      | none => entry_price * (1 - cfg.default_sl_buffer_pct) := by
  rcases zone_low with _ | z <;> simp [plan_core_long]

/-- The risk of the LONG plan branch. -/
theorem plan_core_long_risk (zone_low ob_above : Option ℚ) (entry_price : ℚ)
    (cfg : Layer3RiskConfig) :
    (plan_core_long zone_low ob_above entry_price cfg).risk =
      max (entry_price - (plan_core_long zone_low ob_above entry_price cfg).sl)
        (entry_price * (5/10000)) := by
  rcases zone_low with _ | z <;> simp [plan_core_long]

/-- The second take-profit of the LONG plan branch. -/
theorem plan_core_long_tp2 (zone_low ob_above : Option ℚ) (entry_price : ℚ)
    (cfg : Layer3RiskConfig) :
    (plan_core_long zone_low ob_above entry_price cfg).tp2 =
      entry_price + cfg.tp2_r_multiple *
        (plan_core_long zone_low ob_above entry_price cfg).risk := by
  rcases zone_low with _ | z <;> simp [plan_core_long]

/-- Pure arithmetic: the TP1 clipping of the LONG branch stays strictly
between entry and TP2. -/
theorem tp1_clip_between (entry_price r tp1r tp2r tp1a : ℚ) (hr : 0 < r)
    (h1 : 0 < tp1r) (h12 : tp1r < tp2r) :
    entry_price < (if entry_price + tp2r * r ≤ max tp1a (entry_price + r * (4/5))
        then entry_price + tp1r * r else max tp1a (entry_price + r * (4/5))) ∧
    (if entry_price + tp2r * r ≤ max tp1a (entry_price + r * (4/5))
        then entry_price + tp1r * r else max tp1a (entry_price + r * (4/5))) <
      entry_price + tp2r * r := by
  split_ifs with h
  · constructor <;> nlinarith
  · refine ⟨lt_of_lt_of_le (by nlinarith) (le_max_right _ _), not_le.mp h⟩

/-- The LONG TP1 always lands strictly between entry and TP2 when the
multiples are ordered. -/
theorem plan_core_long_tp1_between (zone_low ob_above : Option ℚ)
    (entry_price : ℚ) (cfg : Layer3RiskConfig)
    (hr : 0 < (plan_core_long zone_low ob_above entry_price cfg).risk)
    (h1 : 0 < cfg.tp1_r_multiple)
    (h12 : cfg.tp1_r_multiple < cfg.tp2_r_multiple) :
    entry_price < (plan_core_long zone_low ob_above entry_price cfg).tp1 ∧
    (plan_core_long zone_low ob_above entry_price cfg).tp1 <
      (plan_core_long zone_low ob_above entry_price cfg).tp2 := by
  have hrisk := plan_core_long_risk zone_low ob_above entry_price cfg
  rcases zone_low with _ | z <;> rcases ob_above with _ | o <;>
    simp only [plan_core_long] at hr ⊢ <;>
    exact tp1_clip_between _ _ _ _ _ hr h1 h12

/-- The stop-loss of the SHORT plan branch. -/
theorem plan_core_short_sl (zone_high ob_below : Option ℚ) (entry_price : ℚ)
    (cfg : Layer3RiskConfig) :
    (plan_core_short zone_high ob_below entry_price cfg).sl =
      match zone_high with
      | some z => if entry_price < z then z
          else entry_price * (1 + cfg.default_sl_buffer_pct)
      | none => entry_price * (1 + cfg.default_sl_buffer_pct) := by
  rcases zone_high with _ | z <;> simp [plan_core_short]

/-- The risk of the SHORT plan branch. -/
theorem plan_core_short_risk (zone_high ob_below : Option ℚ) (entry_price : ℚ)
    (cfg : Layer3RiskConfig) :
    (plan_core_short zone_high ob_below entry_price cfg).risk =
      max ((plan_core_short zone_high ob_below entry_price cfg).sl - entry_price)
        (entry_price * (5/10000)) := by
  rcases zone_high with _ | z <;> simp [plan_core_short]

/-- The second take-profit of the SHORT plan branch. -/
theorem plan_core_short_tp2 (zone_high ob_below : Option ℚ) (entry_price : ℚ)
    (cfg : Layer3RiskConfig) :
    (plan_core_short zone_high ob_below entry_price cfg).tp2 =
      entry_price - cfg.tp2_r_multiple *
        (plan_core_short zone_high ob_below entry_price cfg).risk := by
  rcases zone_high with _ | z <;> simp [plan_core_short]

/-- C1: for every `PrePumpEvent` and positive entry price (with a
non-negative stop buffer and `0 < tp1_r_multiple < tp2_r_multiple`), the
plan arithmetic of `build_execution_plan` is: for LONG, the stop equals a
present swept-zone low below entry and otherwise
`entry * (1 - default_sl_buffer_pct)`; the risk is `|entry - sl|` floored at
`0.0005 * entry`; `tp2 = entry + tp2_r_multiple * risk`; and TP1 lands
strictly between entry and TP2.  Symmetrically for SHORT, a zone high above
entry becomes the stop and `tp2 = entry - tp2_r_multiple * risk < entry`.
The packed plan carries these quantities rounded to 2 decimals. -/
theorem c1_build_execution_plan (event : PrePumpEvent)
    (entry_price quantity : ℚ) (cfg : Layer3RiskConfig)
    (hentry : 0 < entry_price) (hbuf : 0 ≤ cfg.default_sl_buffer_pct)
    (htp1 : 0 < cfg.tp1_r_multiple)
    (h12 : cfg.tp1_r_multiple < cfg.tp2_r_multiple) :
    (event.direction = Direction.LONG →
      (∀ z, zoneLowOf event = some z → z < entry_price →
        (plan_core event entry_price cfg).sl = z) ∧
      ((∀ z, zoneLowOf event = some z → entry_price ≤ z) →
        (plan_core event entry_price cfg).sl =
          entry_price * (1 - cfg.default_sl_buffer_pct)) ∧
      (plan_core event entry_price cfg).risk =
        max |entry_price - (plan_core event entry_price cfg).sl|
          (entry_price * (5/10000)) ∧
      (plan_core event entry_price cfg).tp2 =
        entry_price + cfg.tp2_r_multiple * (plan_core event entry_price cfg).risk ∧
      entry_price < (plan_core event entry_price cfg).tp1 ∧
      (plan_core event entry_price cfg).tp1 <
        (plan_core event entry_price cfg).tp2) ∧
    (event.direction = Direction.SHORT →
      (∀ z, zoneHighOf event = some z → entry_price < z →
        (plan_core event entry_price cfg).sl = z) ∧
      ((∀ z, zoneHighOf event = some z → z ≤ entry_price) →
        (plan_core event entry_price cfg).sl =
          entry_price * (1 + cfg.default_sl_buffer_pct)) ∧
      (plan_core event entry_price cfg).risk =
        max |entry_price - (plan_core event entry_price cfg).sl|
          (entry_price * (5/10000)) ∧
      (plan_core event entry_price cfg).tp2 =
        entry_price - cfg.tp2_r_multiple * (plan_core event entry_price cfg).risk ∧
      (plan_core event entry_price cfg).tp2 < entry_price) ∧
    (build_execution_plan event entry_price quantity cfg).entry =
      pyRoundTo entry_price 2 ∧
    (build_execution_plan event entry_price quantity cfg).sl =
      pyRoundTo (plan_core event entry_price cfg).sl 2 ∧
    (build_execution_plan event entry_price quantity cfg).tp1 =
      pyRoundTo (plan_core event entry_price cfg).tp1 2 ∧
    (build_execution_plan event entry_price quantity cfg).tp2 =
      pyRoundTo (plan_core event entry_price cfg).tp2 2 := by
  have hfloor_pos : 0 < entry_price * (5/10000) := by positivity
  refine ⟨fun hdir => ?_, fun hdir => ?_,
    by simp [build_execution_plan], by simp [build_execution_plan],
    by simp [build_execution_plan], by simp [build_execution_plan]⟩
  · have hred : plan_core event entry_price cfg =
        plan_core_long (zoneLowOf event) (obAboveOf event) entry_price cfg := by
      unfold plan_core
      rw [hdir]
    rw [hred]
    have hsl := plan_core_long_sl (zoneLowOf event) (obAboveOf event)
      entry_price cfg
    have hsl_le : (plan_core_long (zoneLowOf event) (obAboveOf event)
        entry_price cfg).sl ≤ entry_price := by
      rw [hsl]
      rcases zoneLowOf event with _ | z
      · dsimp only
        nlinarith
      · dsimp only
        split_ifs with hz
        · exact hz.le
        · nlinarith
    have hrisk := plan_core_long_risk (zoneLowOf event) (obAboveOf event)
      entry_price cfg
    have hrisk_pos : 0 < (plan_core_long (zoneLowOf event) (obAboveOf event)
        entry_price cfg).risk := by
      rw [hrisk]
      exact lt_max_of_lt_right hfloor_pos
    refine ⟨fun z hz hlt => ?_, fun hnz => ?_, ?_, plan_core_long_tp2 _ _ _ _,
      plan_core_long_tp1_between _ _ _ _ hrisk_pos htp1 h12⟩
    · rw [hsl, hz]
      exact if_pos hlt
    · rw [hsl]
      rcases hz : zoneLowOf event with _ | z
      · rfl
      · dsimp only
        exact if_neg (not_lt.mpr (hnz z hz))
    · rw [hrisk, abs_of_nonneg (sub_nonneg.mpr hsl_le)]
  · have hred : plan_core event entry_price cfg =
        plan_core_short (zoneHighOf event) (obBelowOf event) entry_price cfg := by
      unfold plan_core
      rw [hdir]
    rw [hred]
    have hsl := plan_core_short_sl (zoneHighOf event) (obBelowOf event)
      entry_price cfg
    have hsl_ge : entry_price ≤ (plan_core_short (zoneHighOf event)
        (obBelowOf event) entry_price cfg).sl := by
      rw [hsl]
      rcases zoneHighOf event with _ | z
      · dsimp only
        nlinarith
      · dsimp only
        split_ifs with hz
        · exact hz.le
        · nlinarith
    have hrisk := plan_core_short_risk (zoneHighOf event) (obBelowOf event)
      entry_price cfg
    have hrisk_pos : 0 < (plan_core_short (zoneHighOf event) (obBelowOf event)
        entry_price cfg).risk := by
      rw [hrisk]
      exact lt_max_of_lt_right hfloor_pos
    refine ⟨fun z hz hlt => ?_, fun hnz => ?_, ?_, plan_core_short_tp2 _ _ _ _, ?_⟩
    · rw [hsl, hz]
      exact if_pos hlt
    · rw [hsl]
      rcases hz : zoneHighOf event with _ | z
      · rfl
      · dsimp only
        exact if_neg (not_lt.mpr (hnz z hz))
    · rw [hrisk, abs_sub_comm, abs_of_nonneg (sub_nonneg.mpr hsl_ge)]
    · rw [plan_core_short_tp2]
      nlinarith

/-- Case analysis of one Layer2 scoring tick: either nothing is emitted (and
the active absorption is preserved or cleared), or an event referencing the
active absorption is emitted and the active absorption is cleared. -/
theorem l2_tick_spec (cfg : Layer2Config) (s : Layer2State) (now_ms : ℤ)
    (fresh_id : String) (smc_result : Except Unit (Bool × Bool)) :
    ((l2_tick cfg s now_ms fresh_id smc_result).2 = none ∧
      ((l2_tick cfg s now_ms fresh_id smc_result).1.active_absorption =
          s.active_absorption ∨
        (l2_tick cfg s now_ms fresh_id smc_result).1.active_absorption = none)) ∨
    (∃ e a, s.active_absorption = some a ∧
      (l2_tick cfg s now_ms fresh_id smc_result).2 = some e ∧
      e.source_absorption_event_id = a.event_id ∧
      cfg.thresholds.min_confirmations ≤ e.components.confirmations ∧
      e.score = (e.components.confirmations : ℚ) / 5 ∧
      (l2_tick cfg s now_ms fresh_id smc_result).1.active_absorption = none) := by
  rcases hA : s.active_absorption with _ | a
  · left
    rcases hC : s.candles with _ | cs <;> simp [l2_tick, hA, hC]
  · rcases hC : s.candles with _ | cs
    · left
      simp [l2_tick, hA, hC]
    · simp only [l2_tick, hA, hC]
      split_ifs with httl h1 h2 h3
      · exact Or.inl ⟨rfl, Or.inr rfl⟩
      · exact Or.inr ⟨_, a, rfl, rfl, rfl, h2, rfl, rfl⟩
      · exact Or.inl ⟨rfl, Or.inl rfl⟩
      · exact Or.inr ⟨_, a, rfl, rfl, rfl, h3, rfl, rfl⟩
      · exact Or.inl ⟨rfl, Or.inl rfl⟩

/-- The counting invariant of a Layer2 run: events referencing an absorption
id, plus the active slot holding that id, never exceed the deliveries of
that id. -/
theorem l2_run_invariant (cfg : Layer2Config) (aid : String) :
    ∀ (acts : List L2Action) (s : Layer2State),
      emittedFor aid (l2_run cfg s acts).2 +
        activeHolds aid (l2_run cfg s acts).1 ≤
      activeHolds aid s + acceptsFor aid acts := by
  intro acts
  induction acts with
  | nil =>
    intro s
    simp [l2_run, emittedFor, acceptsFor]
  | cons action rest ih =>
    intro s
    have hemit_append : ∀ (xs ys : List PrePumpEvent),
        emittedFor aid (xs ++ ys) = emittedFor aid xs + emittedFor aid ys := by
      intro xs ys
      simp [emittedFor, List.filter_append]
    cases action with
    | accept e =>
      have hacc : acceptsFor aid (L2Action.accept e :: rest) =
          (if e.event_id = aid then 1 else 0) + acceptsFor aid rest := by
        simp only [acceptsFor, List.filter]
        split_ifs with h <;> simp [h, Nat.add_comm]
      have hcases : l2_accept cfg s e = s ∨
          l2_accept cfg s e = { s with active_absorption := some e } := by
        unfold l2_accept
        split_ifs <;> simp
      have hstep : activeHolds aid (l2_accept cfg s e) ≤
          activeHolds aid s + (if e.event_id = aid then 1 else 0) := by
        rcases hcases with h | h
        · rw [h]
          exact Nat.le_add_right _ _
        · rw [h]
          have : activeHolds aid { s with active_absorption := some e } =
              if e.event_id = aid then 1 else 0 := rfl
          rw [this]
          exact Nat.le_add_left _ _
      have := ih (l2_accept cfg s e)
      simp only [l2_run, l2_step, Option.toList, List.nil_append]
      rw [hacc]
      omega
    | setCandles cs =>
      have hacc : acceptsFor aid (L2Action.setCandles cs :: rest) =
          acceptsFor aid rest := by
        simp [acceptsFor, List.filter]
      have hhold : activeHolds aid
          { s with candles := some cs, last_candle_error := none } =
          activeHolds aid s := by
        unfold activeHolds
        rfl
      have := ih { s with candles := some cs, last_candle_error := none }
      simp only [l2_run, l2_step, Option.toList, List.nil_append]
      rw [hacc]
      omega
    | tick now_ms fresh_id smc_result =>
      have hacc : acceptsFor aid (L2Action.tick now_ms fresh_id smc_result :: rest) =
          acceptsFor aid rest := by
        simp [acceptsFor, List.filter]
      have hrun : l2_run cfg s (L2Action.tick now_ms fresh_id smc_result :: rest) =
          ((l2_run cfg (l2_tick cfg s now_ms fresh_id smc_result).1 rest).1,
            (l2_tick cfg s now_ms fresh_id smc_result).2.toList ++
              (l2_run cfg (l2_tick cfg s now_ms fresh_id smc_result).1 rest).2) := by
        simp [l2_run, l2_step]
      rcases l2_tick_spec cfg s now_ms fresh_id smc_result with
        ⟨hnone, hhold⟩ | ⟨e, a, hA, hsome, hsrc, _, _, hclear⟩
      · have := ih (l2_tick cfg s now_ms fresh_id smc_result).1
        rw [hrun, hacc, hnone]
        simp only [Option.toList, List.nil_append]
        have hh : activeHolds aid (l2_tick cfg s now_ms fresh_id smc_result).1 ≤
            activeHolds aid s := by
          rcases hhold with h | h
          · unfold activeHolds
            rw [h]
          · unfold activeHolds
            rw [h]
            exact Nat.zero_le _
        omega
      · have := ih (l2_tick cfg s now_ms fresh_id smc_result).1
        rw [hrun, hacc, hsome]
        simp only [Option.toList, List.singleton_append]
        have hholdS : activeHolds aid s =
            if a.event_id = aid then 1 else 0 := by
          unfold activeHolds
          rw [hA]
        have hhold0 : activeHolds aid
            (l2_tick cfg s now_ms fresh_id smc_result).1 = 0 := by
          unfold activeHolds
          rw [hclear]
        have hone : emittedFor aid (e :: (l2_run cfg
            (l2_tick cfg s now_ms fresh_id smc_result).1 rest).2) =
            (if e.source_absorption_event_id = aid then 1 else 0) +
            emittedFor aid (l2_run cfg
              (l2_tick cfg s now_ms fresh_id smc_result).1 rest).2 := by
          simp only [emittedFor, List.filter]
          split_ifs with h <;> simp [h, Nat.add_comm]
        rw [hone]
        rw [hsrc]
        rw [hhold0] at this
        split_ifs with hid
        · rw [hholdS, if_pos hid]
          omega
        · rw [hholdS, if_neg hid]
          omega

/-- C5: over any interleaving of queue deliveries, candle refreshes and
scoring ticks in which an absorption id is delivered at most once, at most
one `PrePumpEvent` referencing that id is ever emitted; every emission
carries the active absorption's id with `score = confirmations / 5` under
the `min_confirmations`-of-5 gate and clears the active absorption, and a
tick without an active absorption emits nothing. -/
theorem c5_ignition_single_shot (cfg : Layer2Config) (aid : String)
    (acts : List L2Action) (s0 : Layer2State)
    (h0 : activeHolds aid s0 = 0) (hacc : acceptsFor aid acts ≤ 1) :
    emittedFor aid (l2_run cfg s0 acts).2 ≤ 1 ∧
    (∀ (s : Layer2State) (now_ms : ℤ) (fresh_id : String)
        (smc_result : Except Unit (Bool × Bool)) (e : PrePumpEvent),
      (l2_tick cfg s now_ms fresh_id smc_result).2 = some e →
      (∃ a, s.active_absorption = some a ∧
        e.source_absorption_event_id = a.event_id ∧
        cfg.thresholds.min_confirmations ≤ e.components.confirmations ∧
        e.score = (e.components.confirmations : ℚ) / 5) ∧
      (l2_tick cfg s now_ms fresh_id smc_result).1.active_absorption = none) ∧
    (∀ (s : Layer2State) (now_ms : ℤ) (fresh_id : String)
        (smc_result : Except Unit (Bool × Bool)),
      s.active_absorption = none →
      (l2_tick cfg s now_ms fresh_id smc_result).2 = none) := by
  refine ⟨?_, fun s now_ms fresh_id smc_result e hsome => ?_,
    fun s now_ms fresh_id smc_result hA => ?_⟩
  · have h := l2_run_invariant cfg aid acts s0
    omega
  · rcases l2_tick_spec cfg s now_ms fresh_id smc_result with
      ⟨hnone, _⟩ | ⟨e', a, hA, hsome', hsrc, hconf, hscore, hclear⟩
    · rw [hnone] at hsome
      exact absurd hsome (by simp)
    · rw [hsome'] at hsome
      obtain rfl : e' = e := by injection hsome
      exact ⟨⟨a, hA, hsrc, hconf, hscore⟩, hclear⟩
  · rcases hC : s.candles with _ | cs <;> simp [l2_tick, hA, hC]

/-- C5 witness: a high-score absorption accepted once, candles loaded, and
two scoring ticks with both structural signals confirming — at most one
`PrePumpEvent` referencing the absorption id is emitted, and a tick whose
active absorption was cleared emits nothing. -/
theorem c5_ignition_single_shot_witness :
    emittedFor "abs-1" (l2_run
      (Layer2Config.mk "BTCUSDT" 180000 true
        (Layer2ThresholdConfig.mk 3 (3/5) (7/10) 5 (3/2000)))
      (Layer2State.mk none none none none)
      [L2Action.accept (AbsorptionEvent.mk "abs-1" 0 "BTCUSDT" Direction.LONG 1
          true "trap-1" (AbsorptionBreakdown.mk 0 0 0 0 0 0 0 false false)
          (AbsorptionRaw.mk none (some 1) none) false),
       L2Action.setCandles [Candle.mk 0 1 1 1 1 1 0],
       L2Action.tick 1000 "p1" (Except.ok (true, true)),
       L2Action.tick 2000 "p2" (Except.ok (true, true))]).2 ≤ 1 ∧
    (l2_tick
      (Layer2Config.mk "BTCUSDT" 180000 true
        (Layer2ThresholdConfig.mk 3 (3/5) (7/10) 5 (3/2000)))
      (Layer2State.mk none (some [Candle.mk 0 1 1 1 1 1 0]) none none)
      2000 "p2" (Except.ok (true, true))).2 = none := by
  have h := c5_ignition_single_shot
    (Layer2Config.mk "BTCUSDT" 180000 true
      (Layer2ThresholdConfig.mk 3 (3/5) (7/10) 5 (3/2000))) "abs-1"
    [L2Action.accept (AbsorptionEvent.mk "abs-1" 0 "BTCUSDT" Direction.LONG 1
        true "trap-1" (AbsorptionBreakdown.mk 0 0 0 0 0 0 0 false false)
        (AbsorptionRaw.mk none (some 1) none) false),
     L2Action.setCandles [Candle.mk 0 1 1 1 1 1 0],
     L2Action.tick 1000 "p1" (Except.ok (true, true)),
     L2Action.tick 2000 "p2" (Except.ok (true, true))]
    (Layer2State.mk none none none none) rfl
    (by simp [acceptsFor, List.filter])
  exact ⟨h.1, h.2.2 (Layer2State.mk none (some [Candle.mk 0 1 1 1 1 1 0]) none none)
    2000 "p2" (Except.ok (true, true)) rfl⟩

/-- An element at or above the cutoff survives `dropWhile (· < cutoff)`. -/
theorem mem_dropWhile_of_ge {l : List ℤ} {t cutoff : ℤ} (hmem : t ∈ l)
    (hge : cutoff ≤ t) : t ∈ l.dropWhile (fun x => decide (x < cutoff)) := by
  induction l with
  | nil => exact absurd hmem (List.not_mem_nil t)
  | cons a rest ih =>
    rw [List.dropWhile_cons]
    split_ifs with ha
    · simp only [decide_eq_true_eq] at ha
      rcases List.mem_cons.mp hmem with rfl | hmem'
      · omega
      · exact ih hmem'
    · exact hmem

/-- Every survivor of `dropWhile` was in the original list. -/
theorem mem_of_mem_dropWhile {l : List ℤ} {t : ℤ} {p : ℤ → Bool}
    (hmem : t ∈ l.dropWhile p) : t ∈ l :=
  (List.dropWhile_sublist p).mem hmem

/-- Exhaustive case split of `_process_event`: either nothing is emitted and
the guard state is unchanged or merely pruned of expired rolling-hour
entries, or planning succeeded and an event stamped `now_ms` is emitted with
the cooldown timestamp set, the rolling-hour record extended, and both the
cooldown and the rate-cap guards known to have passed. -/
theorem process_event_cases (config : Layer3Config) (s : Layer3State)
    (event : PrePumpEvent) (now_ms : ℤ) (exec_result : Except Unit ℚ)
    (notify_ok : Bool) (fresh_id : String) (order_ids : OrderIds) :
    ((process_event config s event now_ms exec_result notify_ok fresh_id
        order_ids).emitted = none ∧
      ((process_event config s event now_ms exec_result notify_ok fresh_id
          order_ids).state = s ∨
        (process_event config s event now_ms exec_result notify_ok fresh_id
          order_ids).state =
          { s with recent_entry_ts := (s.recent_entry_ts.dropWhile
              (fun t => decide (t < now_ms - 3600000))) })) ∨
    (∃ e, (process_event config s event now_ms exec_result notify_ok fresh_id
        order_ids).emitted = some e ∧
      e.ts_ms = now_ms ∧
      (process_event config s event now_ms exec_result notify_ok fresh_id
        order_ids).state.last_entry_ts_ms = some now_ms ∧
      (process_event config s event now_ms exec_result notify_ok fresh_id
        order_ids).state.recent_entry_ts =
        s.recent_entry_ts.dropWhile (fun t => decide (t < now_ms - 3600000)) ++
          [now_ms] ∧
      cooldown_active config s now_ms = false ∧
      ¬(0 < config.guard.max_entries_per_hour ∧
        config.guard.max_entries_per_hour ≤
          (s.recent_entry_ts.dropWhile
            (fun t => decide (t < now_ms - 3600000))).length) ∧
      e.plan.quantity = config.fixed_quantity) := by
  unfold process_event
  by_cases h1 : event.passed = false
  · rw [if_pos h1]
    exact Or.inl ⟨rfl, Or.inl rfl⟩
  rw [if_neg h1]
  by_cases h2 : event.symbol.toUpper ≠ config.symbol.toUpper
  · rw [if_pos h2]
    exact Or.inl ⟨rfl, Or.inl rfl⟩
  rw [if_neg h2]
  by_cases h3 : config.pre_pump_ttl_ms < now_ms - event.ts_ms
  · rw [if_pos h3]
    exact Or.inl ⟨rfl, Or.inl rfl⟩
  rw [if_neg h3]
  by_cases h4 : event.event_id ∈ s.seen_source_event_ids
  · rw [if_pos h4]
    exact Or.inl ⟨rfl, Or.inl rfl⟩
  rw [if_neg h4]
  by_cases h5 : cooldown_active config s now_ms = true
  · rw [if_pos h5]
    exact Or.inl ⟨rfl, Or.inl rfl⟩
  rw [if_neg h5]
  dsimp only
  by_cases h6 : 0 < config.guard.max_entries_per_hour ∧
      config.guard.max_entries_per_hour ≤
        (s.recent_entry_ts.dropWhile
          (fun t => decide (t < now_ms - 3600000))).length
  · rw [if_pos h6]
    exact Or.inl ⟨rfl, Or.inr rfl⟩
  rw [if_neg h6]
  rcases exec_result with u | entry_price
  · exact Or.inl ⟨rfl, Or.inr rfl⟩
  · exact Or.inr ⟨_, rfl, rfl, rfl, rfl, (Bool.not_eq_true _).mp h5, h6,
      by simp [build_execution_plan]⟩

/-- `l3_sync` is monotone in the time bound. -/
theorem l3_sync_mono {s : Layer3State} {E : List ℤ} {T T' : ℤ}
    (h : l3_sync s E T) (hle : T ≤ T') : l3_sync s E T' := by
  obtain ⟨h1, h2, P, hP, hPlt⟩ := h
  exact ⟨fun e he => le_trans (h1 e he) hle, h2,
    P, hP, fun e he => lt_of_lt_of_le (hPlt e he) (by omega)⟩

/-- Pruning expired rolling-hour entries preserves `l3_sync`, moving the
time bound forward. -/
theorem l3_sync_pruned {s : Layer3State} {E : List ℤ} {T now_ms : ℤ}
    (h : l3_sync s E T) (hle : T ≤ now_ms) :
    l3_sync { s with recent_entry_ts := (s.recent_entry_ts.dropWhile
        (fun t => decide (t < now_ms - 3600000))) } E now_ms := by
  obtain ⟨h1, h2, P, hP, hPlt⟩ := h
  refine ⟨fun e he => le_trans (h1 e he) hle, h2,
    P ++ s.recent_entry_ts.takeWhile (fun t => decide (t < now_ms - 3600000)),
    ?_, ?_⟩
  · rw [List.append_assoc, List.takeWhile_append_dropWhile]
    exact hP
  · intro e he
    rcases List.mem_append.mp he with he' | he'
    · exact lt_of_lt_of_le (hPlt e he') (by omega)
    · have := List.mem_takeWhile_imp he'
      simpa using this

/-- An emission at `now_ms` re-establishes `l3_sync` for the extended
timestamp list. -/
theorem l3_sync_emit {s s' : Layer3State} {E : List ℤ} {T now_ms : ℤ}
    (h : l3_sync s E T) (hle : T ≤ now_ms)
    (hlast : s'.last_entry_ts_ms = some now_ms)
    (hrecent : s'.recent_entry_ts = s.recent_entry_ts.dropWhile
      (fun t => decide (t < now_ms - 3600000)) ++ [now_ms]) :
    l3_sync s' (E ++ [now_ms]) now_ms := by
  obtain ⟨h1, h2, P, hP, hPlt⟩ := h
  have hall : ∀ e ∈ E ++ [now_ms], e ≤ now_ms := by
    intro e he
    rcases List.mem_append.mp he with he' | he'
    · exact le_trans (h1 e he') hle
    · simp at he'
      omega
  refine ⟨hall, ?_, ?_⟩
  · rw [hlast]
    exact hall
  · refine ⟨P ++ s.recent_entry_ts.takeWhile
      (fun t => decide (t < now_ms - 3600000)), ?_, ?_⟩
    · rw [hrecent, List.append_assoc, ← List.append_assoc
        (s.recent_entry_ts.takeWhile (fun t => decide (t < now_ms - 3600000))),
        List.takeWhile_append_dropWhile, ← List.append_assoc, hP]
    · intro e he
      rcases List.mem_append.mp he with he' | he'
      · exact lt_of_lt_of_le (hPlt e he') (by omega)
      · have := List.mem_takeWhile_imp he'
        simpa using this

/-- When the cooldown guard passed, an emission at `now_ms` preserves the
pairwise entry-gap property. -/
theorem gapOk_extend {config : Layer3Config} {s : Layer3State} {E : List ℤ}
    {T now_ms : ℤ} (h : l3_sync s E T)
    (hcool : cooldown_active config s now_ms = false)
    (hmin : 0 < config.guard.min_seconds_between_entries)
    (hg : gapOk (minGapMs config) E) : gapOk (minGapMs config) (E ++ [now_ms]) := by
  obtain ⟨h1, h2, _⟩ := h
  rw [gapOk, List.pairwise_append]
  refine ⟨hg, List.pairwise_singleton _ _, ?_⟩
  intro a ha b hb
  simp only [List.mem_singleton] at hb
  rw [hb]
  rcases hl : s.last_entry_ts_ms with _ | l
  · rw [hl] at h2
    rw [h2] at ha
    exact absurd ha (List.not_mem_nil a)
  · rw [hl] at h2
    unfold cooldown_active at hcool
    rw [hl] at hcool
    simp only [decide_eq_false_iff_not, not_and, not_lt] at hcool
    have hgap : minGapMs config ≤ now_ms - l := hcool hmin
    have := h2 a ha
    omega

/-- When the rate-cap guard passed, an emission at `now_ms` keeps every
rolling-hour window within the cap. -/
theorem windowCount_extend {config : Layer3Config} {s : Layer3State}
    {E : List ℤ} {T now_ms : ℤ} (h : l3_sync s E T) (hle : T ≤ now_ms)
    (hcap0 : 0 < config.guard.max_entries_per_hour)
    (hguard : ¬(0 < config.guard.max_entries_per_hour ∧
      config.guard.max_entries_per_hour ≤
        (s.recent_entry_ts.dropWhile
          (fun t => decide (t < now_ms - 3600000))).length))
    (hw : ∀ t, windowCount E t ≤ config.guard.max_entries_per_hour) :
    ∀ t, windowCount (E ++ [now_ms]) t ≤ config.guard.max_entries_per_hour := by
  obtain ⟨h1, _, P, hP, hPlt⟩ := h
  have hlen : (s.recent_entry_ts.dropWhile
      (fun t => decide (t < now_ms - 3600000))).length <
      config.guard.max_entries_per_hour := by
    rcases not_and_or.mp hguard with hc | hc
    · exact absurd hcap0 hc
    · omega
  intro t
  rw [windowCount, List.filter_append]
  by_cases hwin : t - 3600000 ≤ now_ms ∧ now_ms ≤ t
  · have hEcount : windowCount E t ≤
        (s.recent_entry_ts.dropWhile
          (fun t => decide (t < now_ms - 3600000))).length := by
      rw [windowCount, hP, List.filter_append]
      have hPzero : (P.filter fun e => decide (t - 3600000 ≤ e ∧ e ≤ t)) = [] := by
        rw [List.filter_eq_nil_iff]
        intro e he
        have := hPlt e he
        simp only [decide_eq_true_eq, not_and]
        intro hge
        omega
      rw [hPzero, List.nil_append]
      calc (s.recent_entry_ts.filter fun e => decide (t - 3600000 ≤ e ∧ e ≤ t)).length
          = ((s.recent_entry_ts.takeWhile
              (fun x => decide (x < now_ms - 3600000)) ++
            s.recent_entry_ts.dropWhile
              (fun x => decide (x < now_ms - 3600000))).filter
              fun e => decide (t - 3600000 ≤ e ∧ e ≤ t)).length := by
            rw [List.takeWhile_append_dropWhile]
        _ ≤ (s.recent_entry_ts.dropWhile
              (fun x => decide (x < now_ms - 3600000))).length := by
            rw [List.filter_append, List.length_append]
            have htake : ((s.recent_entry_ts.takeWhile
                (fun x => decide (x < now_ms - 3600000))).filter
                fun e => decide (t - 3600000 ≤ e ∧ e ≤ t)) = [] := by
              rw [List.filter_eq_nil_iff]
              intro e he
              have := List.mem_takeWhile_imp he
              simp only [decide_eq_true_eq] at this
              simp only [decide_eq_true_eq, not_and]
              intro hge
              omega
            rw [htake]
            simp only [List.length_nil, Nat.zero_add]
            exact List.length_filter_le _ _
    have hsingle : (([now_ms] : List ℤ).filter
        fun e => decide (t - 3600000 ≤ e ∧ e ≤ t)).length ≤ 1 :=
      le_trans (List.length_filter_le _ _) (by simp)
    rw [List.length_append]
    rw [windowCount] at hEcount
    omega
  · have hsingle : (([now_ms] : List ℤ).filter
        fun e => decide (t - 3600000 ≤ e ∧ e ≤ t)) = [] := by
      rw [List.filter_eq_nil_iff]
      intro e he
      simp only [List.mem_singleton] at he
      subst he
      simpa using hwin
    rw [hsingle]
    simp only [List.append_nil]
    exact hw t

/-- The inductive heart of the Layer3 guard properties: along any run with
non-decreasing instants, the entry-gap and rolling-window-cap properties of
the emitted-timestamp list are preserved. -/
theorem l3_run_guards (config : Layer3Config) :
    ∀ (inputs : List L3Input) (s : Layer3State) (E : List ℤ) (T : ℤ),
      l3_sync s E T →
      (∀ inp ∈ inputs, T ≤ inp.now_ms) →
      List.Pairwise (fun a b => a.now_ms ≤ b.now_ms) inputs →
      (0 < config.guard.min_seconds_between_entries →
        gapOk (minGapMs config) E →
        gapOk (minGapMs config)
          (E ++ (l3_run config s inputs).2.map ExecutionEvent.ts_ms)) ∧
      (0 < config.guard.max_entries_per_hour →
        (∀ t, windowCount E t ≤ config.guard.max_entries_per_hour) →
        ∀ t, windowCount
          (E ++ (l3_run config s inputs).2.map ExecutionEvent.ts_ms) t ≤
            config.guard.max_entries_per_hour) := by
  intro inputs
  induction inputs with
  | nil =>
    intro s E T hsync hT hmono
    constructor
    · intro hmin hg
      simpa [l3_run] using hg
    · intro hcap hw
      intro t
      simpa [l3_run] using hw t
  | cons inp rest ih =>
    intro s E T hsync hT hmono
    have hTnow : T ≤ inp.now_ms := hT inp (List.mem_cons_self _ _)
    have hmono' := List.pairwise_cons.mp hmono
    rcases process_event_cases config s inp.event inp.now_ms inp.exec_result
        inp.notify_ok inp.fresh_id inp.order_ids with
      ⟨hnone, hstate⟩ | ⟨e, hsome, hts, hlast, hrecent, hcool, hguard, hqty⟩
    · have hsync' : l3_sync (process_event config s inp.event inp.now_ms
          inp.exec_result inp.notify_ok inp.fresh_id inp.order_ids).state E
          inp.now_ms := by
        rcases hstate with h | h
        · rw [h]
          exact l3_sync_mono hsync hTnow
        · rw [h]
          exact l3_sync_pruned hsync hTnow
      have hih := ih (process_event config s inp.event inp.now_ms
          inp.exec_result inp.notify_ok inp.fresh_id inp.order_ids).state E
          inp.now_ms hsync' (fun i hi => hmono'.1 i hi) hmono'.2
      constructor
      · intro hmin hg
        have := hih.1 hmin hg
        simpa [l3_run, hnone] using this
      · intro hcap hw
        intro t
        have := hih.2 hcap hw t
        simpa [l3_run, hnone] using this
    · have hsync' : l3_sync (process_event config s inp.event inp.now_ms
          inp.exec_result inp.notify_ok inp.fresh_id inp.order_ids).state
          (E ++ [inp.now_ms]) inp.now_ms :=
        l3_sync_emit hsync hTnow hlast hrecent
      have hih := ih (process_event config s inp.event inp.now_ms
          inp.exec_result inp.notify_ok inp.fresh_id inp.order_ids).state
          (E ++ [inp.now_ms]) inp.now_ms hsync' (fun i hi => hmono'.1 i hi)
          hmono'.2
      constructor
      · intro hmin hg
        have hg' := gapOk_extend hsync hcool hmin hg
        have := hih.1 hmin hg'
        simpa [l3_run, hsome, hts, List.append_assoc] using this
      · intro hcap hw
        have hw' := windowCount_extend hsync hTnow hcap hguard hw
        intro t
        have := hih.2 hcap hw' t
        simpa [l3_run, hsome, hts, List.append_assoc] using this

/-- C6: along any Layer3 run with non-decreasing instants starting from a
fresh consumer, when the cooldown is configured no two emitted
`ExecutionEvent`s are closer than `int(min_seconds_between_entries * 1000)`
milliseconds, and when the hourly cap is configured no closed rolling
one-hour window contains more than `max_entries_per_hour` emitted events;
an event hitting the cooldown guard is skipped outright — nothing emitted,
state untouched, nothing queued. -/
theorem c6_entry_guards (config : Layer3Config) (inputs : List L3Input)
    (hmono : List.Pairwise (fun a b => a.now_ms ≤ b.now_ms) inputs) :
    (0 < config.guard.min_seconds_between_entries →
      List.Pairwise (fun a b => a.ts_ms + minGapMs config ≤ b.ts_ms)
        (l3_run config ⟨none, [], [], []⟩ inputs).2) ∧
    (0 < config.guard.max_entries_per_hour → ∀ t,
      windowCount ((l3_run config ⟨none, [], [], []⟩ inputs).2.map
        ExecutionEvent.ts_ms) t ≤ config.guard.max_entries_per_hour) ∧
    (∀ (s : Layer3State) (event : PrePumpEvent) (now_ms : ℤ)
        (exec_result : Except Unit ℚ) (notify_ok : Bool) (fresh_id : String)
        (order_ids : OrderIds),
      event.passed = true → event.symbol.toUpper = config.symbol.toUpper →
      now_ms - event.ts_ms ≤ config.pre_pump_ttl_ms →
      event.event_id ∉ s.seen_source_event_ids →
      cooldown_active config s now_ms = true →
      process_event config s event now_ms exec_result notify_ok fresh_id
        order_ids = ⟨s, none, false⟩) := by
  have hguards : (0 < config.guard.min_seconds_between_entries →
      gapOk (minGapMs config)
        ((l3_run config ⟨none, [], [], []⟩ inputs).2.map ExecutionEvent.ts_ms)) ∧
      (0 < config.guard.max_entries_per_hour → ∀ t,
        windowCount ((l3_run config ⟨none, [], [], []⟩ inputs).2.map
          ExecutionEvent.ts_ms) t ≤ config.guard.max_entries_per_hour) := by
    cases inputs with
    | nil =>
      constructor
      · intro _
        simp [l3_run, gapOk]

      · intro _ t
        simp [l3_run, windowCount]
    | cons inp rest =>
      have hsync0 : l3_sync ⟨none, [], [], []⟩ [] inp.now_ms := by
        refine ⟨by simp, rfl, [], by simp, by simp⟩
      have hT : ∀ i ∈ inp :: rest, inp.now_ms ≤ i.now_ms := by
        intro i hi
        rcases List.mem_cons.mp hi with rfl | hi'
        · exact le_refl _
        · exact (List.pairwise_cons.mp hmono).1 i hi'
      have h := l3_run_guards config (inp :: rest) ⟨none, [], [], []⟩ []
        inp.now_ms hsync0 hT hmono
      constructor
      · intro hmin
        have := h.1 hmin (by simp [gapOk])
        simpa using this
      · intro hcap
        have := h.2 hcap (fun t => by simp [windowCount])
        intro t
        simpa using this t
  refine ⟨fun hmin => ?_, hguards.2, ?_⟩
  · have := hguards.1 hmin
    rw [gapOk, List.pairwise_map] at this
    exact this
  · intro s event now_ms exec_result notify_ok fresh_id order_ids
      hpass hsym httl hseen hcool
    unfold process_event
    rw [if_neg (by simp [hpass]), if_neg (by simp [hsym]),
      if_neg (not_lt.mpr httl), if_neg hseen, if_pos hcool]

/-- C6 witness: two qualifying triggers arriving 5 ms apart under a
20-second cooldown and a 12-per-hour cap — every pair of emitted events
respects the gap, and every rolling window respects the cap. -/
theorem c6_entry_guards_witness :
    List.Pairwise (fun a b => a.ts_ms + minGapMs
        (Layer3Config.mk "BTCUSDT" 180000 (1/100) false
          (Layer3GuardConfig.mk 20 12) (Layer3RiskConfig.mk (11/2500) (3/2) (5/2))
          (Layer3SizingConfig.mk true (1/2) 2 (3/5))) ≤ b.ts_ms)
      (l3_run
        (Layer3Config.mk "BTCUSDT" 180000 (1/100) false
          (Layer3GuardConfig.mk 20 12) (Layer3RiskConfig.mk (11/2500) (3/2) (5/2))
          (Layer3SizingConfig.mk true (1/2) 2 (3/5)))
        ⟨none, [], [], []⟩
        [L3Input.mk (samplePlanEvent Direction.LONG) 1000000 (Except.ok 62959)
          true "e1" (OrderIds.mk "paper-entry" "paper-sl" "paper-tp1" "paper-tp2"),
         L3Input.mk (samplePlanEvent Direction.LONG) 1000005 (Except.ok 62959)
          true "e2" (OrderIds.mk "paper-entry" "paper-sl" "paper-tp1" "paper-tp2")]).2 ∧
    (∀ t, windowCount ((l3_run
        (Layer3Config.mk "BTCUSDT" 180000 (1/100) false
          (Layer3GuardConfig.mk 20 12) (Layer3RiskConfig.mk (11/2500) (3/2) (5/2))
          (Layer3SizingConfig.mk true (1/2) 2 (3/5)))
        ⟨none, [], [], []⟩
        [L3Input.mk (samplePlanEvent Direction.LONG) 1000000 (Except.ok 62959)
          true "e1" (OrderIds.mk "paper-entry" "paper-sl" "paper-tp1" "paper-tp2"),
         L3Input.mk (samplePlanEvent Direction.LONG) 1000005 (Except.ok 62959)
          true "e2" (OrderIds.mk "paper-entry" "paper-sl" "paper-tp1" "paper-tp2")]).2.map
        ExecutionEvent.ts_ms) t ≤ 12) := by
  have h := c6_entry_guards
    (Layer3Config.mk "BTCUSDT" 180000 (1/100) false
      (Layer3GuardConfig.mk 20 12) (Layer3RiskConfig.mk (11/2500) (3/2) (5/2))
      (Layer3SizingConfig.mk true (1/2) 2 (3/5)))
    [L3Input.mk (samplePlanEvent Direction.LONG) 1000000 (Except.ok 62959)
      true "e1" (OrderIds.mk "paper-entry" "paper-sl" "paper-tp1" "paper-tp2"),
     L3Input.mk (samplePlanEvent Direction.LONG) 1000005 (Except.ok 62959)
      true "e2" (OrderIds.mk "paper-entry" "paper-sl" "paper-tp1" "paper-tp2")]
    (by norm_num [List.pairwise_cons])
  exact ⟨h.1 (by norm_num), h.2.1 (by norm_num)⟩

/-- C9: when the fallible planning/order-placement section of Layer3's
`_process_event` raises for an event that survived all guards, no
`ExecutionEvent` is emitted, the cooldown timestamp and the dedup
set/fifo are left unchanged, the rolling-hour record keeps exactly its
in-window entries (only already-expired entries are pruned, nothing is
added), the best-effort error alert is attempted exactly when the
notification channel is configured, and the call returns normally so the
consumer loop continues. -/
theorem c9_error_atomicity (config : Layer3Config) (state : Layer3State)
    (event : PrePumpEvent) (now_ms : ℤ) (notify_ok : Bool) (fresh_id : String)
    (order_ids : OrderIds)
    (hpass : event.passed = true)
    (hsym : event.symbol.toUpper = config.symbol.toUpper)
    (httl : now_ms - event.ts_ms ≤ config.pre_pump_ttl_ms)
    (hseen : event.event_id ∉ state.seen_source_event_ids)
    (hcool : cooldown_active config state now_ms = false)
    (hcap : ¬(0 < config.guard.max_entries_per_hour ∧
      config.guard.max_entries_per_hour ≤
        (state.recent_entry_ts.dropWhile
          (fun t => decide (t < now_ms - 3600000))).length)) :
    process_event config state event now_ms (Except.error ()) notify_ok
        fresh_id order_ids =
      ⟨⟨state.last_entry_ts_ms,
        state.recent_entry_ts.dropWhile (fun t => decide (t < now_ms - 3600000)),
        state.seen_source_event_ids, state.seen_source_fifo⟩,
       none, config.telegram_enabled⟩ ∧
    (∀ t ∈ state.recent_entry_ts, now_ms - 3600000 ≤ t →
      t ∈ (process_event config state event now_ms (Except.error ()) notify_ok
        fresh_id order_ids).state.recent_entry_ts) ∧
    (∀ t ∈ (process_event config state event now_ms (Except.error ()) notify_ok
        fresh_id order_ids).state.recent_entry_ts,
      t ∈ state.recent_entry_ts) := by
  have hres : process_event config state event now_ms (Except.error ()) notify_ok
      fresh_id order_ids =
      ⟨⟨state.last_entry_ts_ms,
        state.recent_entry_ts.dropWhile (fun t => decide (t < now_ms - 3600000)),
        state.seen_source_event_ids, state.seen_source_fifo⟩,
       none, config.telegram_enabled⟩ := by
    unfold process_event
    rw [if_neg (by simp [hpass]), if_neg (by simp [hsym]),
      if_neg (not_lt.mpr httl), if_neg hseen, if_neg (by simp [hcool])]
    dsimp only
    rw [if_neg hcap]
  refine ⟨hres, fun t hmem hge => ?_, fun t hmem => ?_⟩
  · rw [hres]
    exact mem_dropWhile_of_ge hmem hge
  · rw [hres] at hmem
    exact mem_of_mem_dropWhile hmem

/-- C9 witness: an event whose payload yields no derivable entry price (so
paper-mode planning raises) passes the guards of a fresh consumer, emits
nothing, leaves the guard state untouched and attempts the error alert. -/
theorem c9_error_atomicity_witness :
    process_event
        (Layer3Config.mk "BTCUSDT" 180000 (1/100) true
          (Layer3GuardConfig.mk 20 12) (Layer3RiskConfig.mk (11/2500) (3/2) (5/2))
          (Layer3SizingConfig.mk true (1/2) 2 (3/5)))
        (Layer3State.mk none [] [] [])
        (samplePlanEvent Direction.LONG) 1000000 (Except.error ()) true
        "exec-1" (OrderIds.mk "paper-entry" "paper-sl" "paper-tp1" "paper-tp2") =
      ⟨⟨none, [], [], []⟩, none, true⟩ := by
  have h := (c9_error_atomicity
      (Layer3Config.mk "BTCUSDT" 180000 (1/100) true
        (Layer3GuardConfig.mk 20 12) (Layer3RiskConfig.mk (11/2500) (3/2) (5/2))
        (Layer3SizingConfig.mk true (1/2) 2 (3/5)))
      (Layer3State.mk none [] [] [])
      (samplePlanEvent Direction.LONG) 1000000 true "exec-1"
      (OrderIds.mk "paper-entry" "paper-sl" "paper-tp1" "paper-tp2")
      rfl rfl (by norm_num [samplePlanEvent]) (by simp) rfl
      (by simp)).1
  simpa using h

/-- C10 counterexample: with adaptive sizing enabled and
`min_multiplier = 1.2`, a qualifying event still produces an
`ExecutionEvent` whose plan quantity is exactly the configured fixed
quantity 0.01 — not the base scaled by a multiplier in [1.2, 2] (any such
scaling would change it), and not the value `derive_adaptive_quantity`
(which the executor never calls) would produce. -/
theorem c10_adaptive_sizing_counterexample :
    ((process_event
      (Layer3Config.mk "BTCUSDT" 180000 (1/100) false
        (Layer3GuardConfig.mk 20 12) (Layer3RiskConfig.mk (11/2500) (3/2) (5/2))
        (Layer3SizingConfig.mk true (6/5) 2 (3/5)))
      ⟨none, [], [], []⟩ (samplePlanEvent Direction.LONG) 1000000
      (Except.ok 62959) true "e1"
      (OrderIds.mk "paper-entry" "paper-sl" "paper-tp1" "paper-tp2")).emitted.map
        (fun e => e.plan.quantity)) = some (1/100) ∧
    (Layer3SizingConfig.mk true (6/5) 2 (3/5)).enabled = true ∧
    (samplePlanEvent Direction.LONG).degraded = false ∧
    (∀ m : ℚ, 6/5 ≤ m → (1/100 : ℚ) * m ≠ 1/100) ∧
    (derive_adaptive_quantity (samplePlanEvent Direction.LONG) (1/100)
      (Layer3SizingConfig.mk true (6/5) 2 (3/5))).1 ≠ 1/100 := by
  refine ⟨?_, rfl, rfl, ?_, ?_⟩
  · unfold process_event
    rw [if_neg (by simp [samplePlanEvent]), if_neg (by simp [samplePlanEvent]),
      if_neg (by norm_num [samplePlanEvent]), if_neg (by simp),
      if_neg (by simp [cooldown_active])]
    dsimp only
    rw [if_neg (by simp)]
    simp [build_execution_plan]
  · intro m hm
    nlinarith
  · norm_num [derive_adaptive_quantity, sizing_multiplier, sizing_normalized,
      sizing_confidence, samplePlanEvent, samplePlanRaw, pyRoundTo,
      roundHalfEven]

/-- C10 amended: the executor never applies adaptive sizing — every emitted
`ExecutionEvent`'s plan carries exactly `config.fixed_quantity`; the unused
`derive_adaptive_quantity` would scale the base by the confidence-blended
multiplier `sizing_multiplier` (bounded between the configured min and max
multipliers), reduced by 30% when the event is degraded and floored at 10%
of the base, rounded to 6 decimals. -/
theorem c10_adaptive_sizing_amended :
    (∀ (config : Layer3Config) (s : Layer3State) (event : PrePumpEvent)
        (now_ms : ℤ) (exec_result : Except Unit ℚ) (notify_ok : Bool)
        (fresh_id : String) (order_ids : OrderIds) (e : ExecutionEvent),
      (process_event config s event now_ms exec_result notify_ok fresh_id
        order_ids).emitted = some e →
      e.plan.quantity = config.fixed_quantity) ∧
    (∀ (event : PrePumpEvent) (base_quantity : ℚ) (sizing : Layer3SizingConfig),
      sizing.enabled = true → 0 < base_quantity →
      sizing.min_multiplier ≤ sizing.max_multiplier →
      0 ≤ sizing_normalized event sizing ∧
      sizing_normalized event sizing ≤ 1 ∧
      sizing.min_multiplier ≤ sizing_multiplier event sizing ∧
      sizing_multiplier event sizing ≤ sizing.max_multiplier ∧
      (derive_adaptive_quantity event base_quantity sizing).1 =
        pyRoundTo (max (base_quantity * (sizing_multiplier event sizing *
          (if event.degraded then 7/10 else 1)))
          (base_quantity * (1/10))) 6) := by
  constructor
  · intro config s event now_ms exec_result notify_ok fresh_id order_ids e h
    rcases process_event_cases config s event now_ms exec_result notify_ok
        fresh_id order_ids with ⟨hnone, _⟩ | ⟨e', hsome, _, _, _, _, _, hqty⟩
    · rw [hnone] at h
      exact absurd h (by simp)
    · rw [hsome] at h
      obtain rfl : e' = e := by injection h
      exact hqty
  · intro event base_quantity sizing hen hbase hminmax
    have hn0 : 0 ≤ sizing_normalized event sizing := by
      unfold sizing_normalized
      dsimp only
      split_ifs with hc
      · exact le_refl 0
      · refine le_min (div_nonneg ?_ ?_) zero_le_one
        · linarith [not_le.mp hc]
        · exact le_trans (by norm_num) (le_max_left (1/1000000000) _)
    have hn1 : sizing_normalized event sizing ≤ 1 := by
      unfold sizing_normalized
      dsimp only
      split_ifs with hc
      · exact zero_le_one
      · exact min_le_right _ _
    have hm1 : sizing.min_multiplier ≤ sizing_multiplier event sizing := by
      unfold sizing_multiplier
      nlinarith [sub_nonneg.mpr hminmax]
    have hm2 : sizing_multiplier event sizing ≤ sizing.max_multiplier := by
      unfold sizing_multiplier
      nlinarith [sub_nonneg.mpr hminmax]
    refine ⟨hn0, hn1, hm1, hm2, ?_⟩
    unfold derive_adaptive_quantity
    rw [if_neg (not_le.mpr hbase), if_neg (by simp [hen])]
    dsimp only
    by_cases hd : event.degraded = true
    · rw [if_pos hd, if_pos hd]
    · rw [if_neg hd, if_neg hd, mul_one]

/-- C10 amended witness: at the counterexample fixture, the multiplier the
unused sizing helper would apply lies in [1.2, 2] and its quantity formula
holds. -/
theorem c10_adaptive_sizing_amended_witness :
    0 ≤ sizing_normalized (samplePlanEvent Direction.LONG)
      (Layer3SizingConfig.mk true (6/5) 2 (3/5)) ∧
    sizing_normalized (samplePlanEvent Direction.LONG)
      (Layer3SizingConfig.mk true (6/5) 2 (3/5)) ≤ 1 ∧
    (6/5 : ℚ) ≤ sizing_multiplier (samplePlanEvent Direction.LONG)
      (Layer3SizingConfig.mk true (6/5) 2 (3/5)) ∧
    sizing_multiplier (samplePlanEvent Direction.LONG)
      (Layer3SizingConfig.mk true (6/5) 2 (3/5)) ≤ 2 ∧
    (derive_adaptive_quantity (samplePlanEvent Direction.LONG) (1/100)
      (Layer3SizingConfig.mk true (6/5) 2 (3/5))).1 =
      pyRoundTo (max ((1/100) * (sizing_multiplier (samplePlanEvent Direction.LONG)
        (Layer3SizingConfig.mk true (6/5) 2 (3/5)) *
        (if (samplePlanEvent Direction.LONG).degraded then 7/10 else 1)))
        ((1/100) * (1/10))) 6 :=
  (c10_adaptive_sizing_amended).2 (samplePlanEvent Direction.LONG) (1/100)
    (Layer3SizingConfig.mk true (6/5) 2 (3/5)) rfl (by norm_num) (by norm_num)

/-- C1 witness: the planner fixture (LONG, entry 62959, zone low 62680, TP1
multiple 1.5, TP2 multiple 2.5) gives `sl = 62680`,
`tp2 = round(62959 + (62959 - 62680) * 2.5, 2)` and `entry < tp1 < tp2`;
for SHORT with zone high 63200, `sl = 63200` and `tp2 < entry`. -/
theorem c1_build_execution_plan_witness :
    (build_execution_plan (samplePlanEvent Direction.LONG) 62959 (1/100)
      (Layer3RiskConfig.mk (11/2500) (3/2) (5/2))).sl = 62680 ∧
    (build_execution_plan (samplePlanEvent Direction.LONG) 62959 (1/100)
      (Layer3RiskConfig.mk (11/2500) (3/2) (5/2))).tp2 =
      pyRoundTo (62959 + (62959 - 62680) * (5/2)) 2 ∧
    (build_execution_plan (samplePlanEvent Direction.LONG) 62959 (1/100)
      (Layer3RiskConfig.mk (11/2500) (3/2) (5/2))).entry <
      (build_execution_plan (samplePlanEvent Direction.LONG) 62959 (1/100)
        (Layer3RiskConfig.mk (11/2500) (3/2) (5/2))).tp1 ∧
    (build_execution_plan (samplePlanEvent Direction.LONG) 62959 (1/100)
      (Layer3RiskConfig.mk (11/2500) (3/2) (5/2))).tp1 <
      (build_execution_plan (samplePlanEvent Direction.LONG) 62959 (1/100)
        (Layer3RiskConfig.mk (11/2500) (3/2) (5/2))).tp2 ∧
    (build_execution_plan (samplePlanEvent Direction.SHORT) 62959 (1/100)
      (Layer3RiskConfig.mk (11/2500) (3/2) (5/2))).sl = 63200 ∧
    (build_execution_plan (samplePlanEvent Direction.SHORT) 62959 (1/100)
      (Layer3RiskConfig.mk (11/2500) (3/2) (5/2))).tp2 <
      (build_execution_plan (samplePlanEvent Direction.SHORT) 62959 (1/100)
        (Layer3RiskConfig.mk (11/2500) (3/2) (5/2))).entry := by
  have hL := c1_build_execution_plan (samplePlanEvent Direction.LONG) 62959
    (1/100) (Layer3RiskConfig.mk (11/2500) (3/2) (5/2))
    (by norm_num) (by norm_num) (by norm_num) (by norm_num)
  have hS := c1_build_execution_plan (samplePlanEvent Direction.SHORT) 62959
    (1/100) (Layer3RiskConfig.mk (11/2500) (3/2) (5/2))
    (by norm_num) (by norm_num) (by norm_num) (by norm_num)
  have hcoreL : plan_core (samplePlanEvent Direction.LONG) 62959
      (Layer3RiskConfig.mk (11/2500) (3/2) (5/2)) =
      PlanCore.mk 62680 279 (126755/2) (127313/2) := by
    norm_num [plan_core, plan_core_long, zoneLowOf, obAboveOf, sourceRaw,
      samplePlanEvent, samplePlanRaw]
  have hcoreS : plan_core (samplePlanEvent Direction.SHORT) 62959
      (Layer3RiskConfig.mk (11/2500) (3/2) (5/2)) =
      PlanCore.mk 63200 241 (125195/2) (124713/2) := by
    norm_num [plan_core, plan_core_short, zoneHighOf, obBelowOf, sourceRaw,
      samplePlanEvent, samplePlanRaw]
  refine ⟨?_, ?_, ?_, ?_, ?_, ?_⟩
  · rw [hL.2.2.2.1, hcoreL]
    exact pyRoundTo_two_of_int 62680 6268000 (by norm_num)
  · rw [hL.2.2.2.2.2, hcoreL]
    norm_num
  · rw [hL.2.2.1, hL.2.2.2.2.1, hcoreL,
      pyRoundTo_two_of_int 62959 6295900 (by norm_num)]
    have : pyRoundTo ((126755 : ℚ)/2) 2 = (126755 : ℚ)/2 :=
      pyRoundTo_two_of_int _ 6337750 (by norm_num)
    rw [show (PlanCore.mk 62680 279 ((126755 : ℚ)/2) (127313/2)).tp1 =
      (126755 : ℚ)/2 from rfl, this]
    norm_num
  · rw [hL.2.2.2.2.1, hL.2.2.2.2.2, hcoreL]
    rw [show (PlanCore.mk 62680 279 ((126755 : ℚ)/2) (127313/2)).tp1 =
      (126755 : ℚ)/2 from rfl]
    rw [show (PlanCore.mk 62680 279 ((126755 : ℚ)/2) (127313/2)).tp2 =
      (127313 : ℚ)/2 from rfl]
    rw [pyRoundTo_two_of_int ((126755 : ℚ)/2) 6337750 (by norm_num),
      pyRoundTo_two_of_int ((127313 : ℚ)/2) 6365650 (by norm_num)]
    norm_num
  · rw [hS.2.2.2.1, hcoreS]
    exact pyRoundTo_two_of_int 63200 6320000 (by norm_num)
  · rw [hS.2.2.1, hS.2.2.2.2.2, hcoreS,
      pyRoundTo_two_of_int 62959 6295900 (by norm_num)]
    rw [show (PlanCore.mk 63200 241 ((125195 : ℚ)/2) (124713/2)).tp2 =
      (124713 : ℚ)/2 from rfl]
    rw [pyRoundTo_two_of_int ((124713 : ℚ)/2) 6235650 (by norm_num)]
    norm_num

end Phantom
